import Mathlib

set_option maxRecDepth 8000

/-!
Verification of the flexline chunk-generation subsystem: the seeded world
generator (src/game/worldGenerator.ts), its worker-side replica
(src/workers/chunkWorker.ts), the chunk cache / generation coordinator
(GameStateManager in src/game/gameState.ts), and the worker pool dispatcher
(WorkerManager in src/workers/WorkerManager.ts).

Noise values are modelled as exact rationals: the five simplex-noise fields
are abstract functions ℚ → ℚ → ℚ, and the seeded construction
(new Prando(seed); createNoise2D(() => rng.next()) five times) is modelled
by abstract library primitives passed as parameters, since simplex-noise and
Prando are external libraries, not code of this repository.
-/

/-! ### Injectivity of the canonical chunk key "x,y"

The cache, the in-flight table and the worker memo are all keyed by the
template literal `${x},${y}`.  Distinct coordinate pairs give distinct keys
because the decimal representation of an integer is injective and contains
no comma. -/

/-! ### Association-list model of a JS Map

`Map.get`/`Map.set`/`Map.delete`/`Map.has` are modelled on association
lists; `setA` replaces any existing binding of the key. -/

/-! ### Chunk cache / generation coordinator (GameStateManager)

The control thread is single-threaded with an event loop, so the async path
is modelled as a state machine: `getOrGenerateChunkAsync` runs synchronously
up to returning its promise; the body of `Promise.resolve().then(...)` is a
scheduled job (`PendingJob`) executed later by `runNextJob`.  Promises are
identified by numeric ids in a promise store.  `worldGen` stands for
`this.worldGenerator.generateChunk`, which may throw (modelled as `Except`);
`genCount` counts its invocations, `notifyCount` the calls to `notify()`. -/

/-! ### Worker pool dispatcher (WorkerManager, src/workers/WorkerManager.ts)

Only the parts the claims concern are modelled: the pending-request tables,
the per-request correlation ids, the timeout timers scheduled by each
request constructor, and the response handlers.  Which worker of the pool
receives the posted message (round-robin) does not affect any of these.
ImageBitmap payloads are opaque handles, modelled as numbers. -/

/-! ### Worker-side chunk generation (src/workers/chunkWorker.ts)

Per-worker state: the lazily (re)constructed generator and the local
`chunkKey -> Chunk` memo.  Posted responses are collected in `outbox`. -/

/-- CHUNK_SIZE from src/game/config.ts. -/
def CHUNK_SIZE : Nat := 32

/-- TileTypeSchema = z.enum(["land", "water"]) from src/game/schemas.ts. -/
inductive TileType where
  | land
  | water
  deriving DecidableEq, Repr, Inhabited

/-- ResourceTypeSchema = z.enum(["iron","copper","coal","wood","stone"]). -/
inductive ResourceType where
  | iron
  | copper
  | coal
  | wood
  | stone
  deriving DecidableEq, Repr, Inhabited

/-- TileSchema from src/game/schemas.ts. -/
structure Tile where
  type : TileType
  elevation : Int
  resource : Option ResourceType
  resourceAmount : Option Int
  deriving DecidableEq, Repr

/-- ChunkSchema from src/game/schemas.ts: `{ x, y, tiles: Tile[][] }`.
The zod schema puts no length constraint on `tiles`. -/
structure Chunk where
  x : Int
  y : Int
  tiles : List (List Tile)
  deriving DecidableEq, Repr

/-- Default used to read `tiles[y][x]`; out-of-range reads never occur for
indices below CHUNK_SIZE. -/
def defaultTile : Tile := { type := TileType.water, elevation := 0, resource := none, resourceAmount := none }

instance : Inhabited Tile := ⟨defaultTile⟩

/-- The five noise fields held by a generator instance, in declaration order
of the private fields of class WorldGenerator / WorkerWorldGenerator. -/
structure NoiseFields where
  terrainNoise : ℚ → ℚ → ℚ
  resourceNoise : ℚ → ℚ → ℚ
  elevationNoise : ℚ → ℚ → ℚ
  resourceSpawnNoise : ℚ → ℚ → ℚ
  resourceAmountNoise : ℚ → ℚ → ℚ

/-- Constructor of class WorldGenerator (src/game/worldGenerator.ts):
`const rng = new Prando(seed)` then five `createNoise2D(() => rng.next())`
calls, each consuming further draws of the same seeded stream.
`prandoNext seed` is the stream of outputs of `rng.next()` for that seed;
`createNoise2D` receives the stream and the index of the next unconsumed
draw and returns the noise function plus the new index. -/
def WorldGenerator.create
    (prandoNext : String → Nat → ℚ)
    (createNoise2D : (Nat → ℚ) → Nat → ((ℚ → ℚ → ℚ) × Nat))
    (seed : String) : NoiseFields :=
  let rng := prandoNext seed
  let t := createNoise2D rng 0
  let r := createNoise2D rng t.2
  let e := createNoise2D rng r.2
  let rs := createNoise2D rng e.2
  let ra := createNoise2D rng rs.2
  { terrainNoise := t.1
    resourceNoise := r.1
    elevationNoise := e.1
    resourceSpawnNoise := rs.1
    resourceAmountNoise := ra.1 }

/-- WorldGenerator.generateChunk (src/game/worldGenerator.ts, lines 22-83). -/
def WorldGenerator.generateChunk (g : NoiseFields) (chunkX chunkY : Int) : Chunk :=
  { x := chunkX
    y := chunkY
    tiles :=
      (List.range CHUNK_SIZE).map (fun (y : Nat) =>
        (List.range CHUNK_SIZE).map (fun (x : Nat) =>
          let tileX : Int := chunkX * (CHUNK_SIZE : Int) + Int.ofNat x
          let tileY : Int := chunkY * (CHUNK_SIZE : Int) + Int.ofNat y
          let terrainValue := g.terrainNoise ((tileX : ℚ) * 0.015) ((tileY : ℚ) * 0.015)
          let elevationValue := g.elevationNoise ((tileX : ℚ) * 0.025) ((tileY : ℚ) * 0.025)
          let resourceValue := g.resourceNoise ((tileX : ℚ) * 0.05) ((tileY : ℚ) * 0.05)
          let resourceSpawnValue := g.resourceSpawnNoise ((tileX : ℚ) * 0.1) ((tileY : ℚ) * 0.1)
          let resourceAmountValue := g.resourceAmountNoise ((tileX : ℚ) * 0.08) ((tileY : ℚ) * 0.08)
          let type := if terrainValue > -0.1 then TileType.land else TileType.water
          let elevation : Int :=
            if type = TileType.land then (if elevationValue > 0 then 1 else 0)
            else (if elevationValue > 0.2 then 0 else 1)
          let res : Option ResourceType × Option Int :=
            if type = TileType.land ∧ resourceSpawnValue > 0.7 then
              (some (if resourceValue > 0.6 then ResourceType.iron
                     else if resourceValue > 0.3 then ResourceType.copper
                     else if resourceValue > 0 then ResourceType.coal
                     else if resourceValue > -0.3 then ResourceType.stone
                     else ResourceType.wood),
               some (⌊(resourceAmountValue + 1) * 25⌋ + 50))
            else (none, none)
          { type := type
            elevation := elevation
            resource := res.1
            resourceAmount := res.2 }))
  }

/-- WorldGenerator.getChunkKey: the template literal `${x},${y}`. -/
def WorldGenerator.getChunkKey (x y : Int) : String :=
  toString x ++ "," ++ toString y

/-- WorldGenerator.getChunkCoordinates: `Math.floor(tile / CHUNK_SIZE)`. -/
def WorldGenerator.getChunkCoordinates (tileX tileY : ℚ) : Int × Int :=
  (⌊tileX / (CHUNK_SIZE : ℚ)⌋, ⌊tileY / (CHUNK_SIZE : ℚ)⌋)

/-- Constructor of class WorkerWorldGenerator (src/workers/chunkWorker.ts),
transcribed separately: its body is identical to WorldGenerator's. -/
def WorkerWorldGenerator.create
    (prandoNext : String → Nat → ℚ)
    (createNoise2D : (Nat → ℚ) → Nat → ((ℚ → ℚ → ℚ) × Nat))
    (seed : String) : NoiseFields :=
  let rng := prandoNext seed
  let t := createNoise2D rng 0
  let r := createNoise2D rng t.2
  let e := createNoise2D rng r.2
  let rs := createNoise2D rng e.2
  let ra := createNoise2D rng rs.2
  { terrainNoise := t.1
    resourceNoise := r.1
    elevationNoise := e.1
    resourceSpawnNoise := rs.1
    resourceAmountNoise := ra.1 }

/-- WorkerWorldGenerator.generateChunk (src/workers/chunkWorker.ts, lines
28-95), transcribed separately from its own source text. -/
def WorkerWorldGenerator.generateChunk (g : NoiseFields) (chunkX chunkY : Int) : Chunk :=
  { x := chunkX
    y := chunkY
    tiles :=
      (List.range CHUNK_SIZE).map (fun (y : Nat) =>
        (List.range CHUNK_SIZE).map (fun (x : Nat) =>
          let tileX : Int := chunkX * (CHUNK_SIZE : Int) + Int.ofNat x
          let tileY : Int := chunkY * (CHUNK_SIZE : Int) + Int.ofNat y
          let terrainValue := g.terrainNoise ((tileX : ℚ) * 0.015) ((tileY : ℚ) * 0.015)
          let elevationValue := g.elevationNoise ((tileX : ℚ) * 0.025) ((tileY : ℚ) * 0.025)
          let resourceValue := g.resourceNoise ((tileX : ℚ) * 0.05) ((tileY : ℚ) * 0.05)
          let resourceSpawnValue := g.resourceSpawnNoise ((tileX : ℚ) * 0.1) ((tileY : ℚ) * 0.1)
          let resourceAmountValue := g.resourceAmountNoise ((tileX : ℚ) * 0.08) ((tileY : ℚ) * 0.08)
          let type := if terrainValue > -0.1 then TileType.land else TileType.water
          let elevation : Int :=
            if type = TileType.land then (if elevationValue > 0 then 1 else 0)
            else (if elevationValue > 0.2 then 0 else 1)
          let res : Option ResourceType × Option Int :=
            if type = TileType.land ∧ resourceSpawnValue > 0.7 then
              (some (if resourceValue > 0.6 then ResourceType.iron
                     else if resourceValue > 0.3 then ResourceType.copper
                     else if resourceValue > 0 then ResourceType.coal
                     else if resourceValue > -0.3 then ResourceType.stone
                     else ResourceType.wood),
               some (⌊(resourceAmountValue + 1) * 25⌋ + 50))
            else (none, none)
          { type := type
            elevation := elevation
            resource := res.1
            resourceAmount := res.2 }))
  }

/-- Reference form of the loop body of generateChunk as a function of world
tile coordinates; used to state per-tile properties. -/
def tileAt (g : NoiseFields) (tileX tileY : Int) : Tile :=
  let terrainValue := g.terrainNoise ((tileX : ℚ) * 0.015) ((tileY : ℚ) * 0.015)
  let elevationValue := g.elevationNoise ((tileX : ℚ) * 0.025) ((tileY : ℚ) * 0.025)
  let resourceValue := g.resourceNoise ((tileX : ℚ) * 0.05) ((tileY : ℚ) * 0.05)
  let resourceSpawnValue := g.resourceSpawnNoise ((tileX : ℚ) * 0.1) ((tileY : ℚ) * 0.1)
  let resourceAmountValue := g.resourceAmountNoise ((tileX : ℚ) * 0.08) ((tileY : ℚ) * 0.08)
  let type := if terrainValue > -0.1 then TileType.land else TileType.water
  let elevation : Int :=
    if type = TileType.land then (if elevationValue > 0 then 1 else 0)
    else (if elevationValue > 0.2 then 0 else 1)
  let res : Option ResourceType × Option Int :=
    if type = TileType.land ∧ resourceSpawnValue > 0.7 then
      (some (if resourceValue > 0.6 then ResourceType.iron
             else if resourceValue > 0.3 then ResourceType.copper
             else if resourceValue > 0 then ResourceType.coal
             else if resourceValue > -0.3 then ResourceType.stone
             else ResourceType.wood),
       some (⌊(resourceAmountValue + 1) * 25⌋ + 50))
    else (none, none)
  { type := type
    elevation := elevation
    resource := res.1
    resourceAmount := res.2 }

/-- Numeric value of a decimal digit character. -/
def charVal (c : Char) : Nat := c.toNat - 48

/-- Number of decimal digits. -/
def numLen (n : Nat) : Nat :=
  if n < 10 then 1 else numLen (n / 10) + 1
termination_by n
decreasing_by exact Nat.div_lt_self (by omega) (by omega)

def lookupA {κ α : Type} [DecidableEq κ] (m : List (κ × α)) (k : κ) : Option α :=
  (m.find? (fun e => e.1 = k)).map Prod.snd

def eraseA {κ α : Type} [DecidableEq κ] (m : List (κ × α)) (k : κ) : List (κ × α) :=
  m.filter (fun e => e.1 ≠ k)

def setA {κ α : Type} [DecidableEq κ] (m : List (κ × α)) (k : κ) (v : α) : List (κ × α) :=
  (k, v) :: eraseA m k

inductive PromState where
  | pending
  | resolved (c : Chunk)
  | rejected (e : String)
  deriving DecidableEq, Repr

/-- One entry of the `inventory` record from the game state. -/
structure Inventory where
  iron : Int
  copper : Int
  coal : Int
  wood : Int
  stone : Int
  deriving DecidableEq, Repr

/-- `this.state.inventory[r] += 1`. -/
def Inventory.addOne (inv : Inventory) (r : ResourceType) : Inventory :=
  match r with
  | ResourceType.iron => { inv with iron := inv.iron + 1 }
  | ResourceType.copper => { inv with copper := inv.copper + 1 }
  | ResourceType.coal => { inv with coal := inv.coal + 1 }
  | ResourceType.wood => { inv with wood := inv.wood + 1 }
  | ResourceType.stone => { inv with stone := inv.stone + 1 }

/-- The microtask scheduled by `Promise.resolve().then(...)` in
getOrGenerateChunkAsync: generate (chunkX, chunkY), then settle promise
`pid` registered under in-flight key `key`. -/
structure PendingJob where
  key : String
  chunkX : Int
  chunkY : Int
  pid : Nat
  deriving DecidableEq, Repr

/-- State owned by GameStateManager (src/game/gameState.ts) that the claims
concern: `state.chunks`, `state.inventory`, `chunkGenerationPromises`
(split into the key → promise-id table `inflight` and the promise store),
plus the scheduled microtasks and instrumentation counters. -/
structure CoordState where
  chunks : List (String × Chunk)
  inventory : Inventory
  inflight : List (String × Nat)
  jobs : List PendingJob
  promises : List (Nat × PromState)
  nextPromiseId : Nat
  notifyCount : Nat
  genCount : Nat
  deriving DecidableEq, Repr

/-- GameStateManager.getOrGenerateChunk (src/game/gameState.ts lines 69-79):
if the key is absent, generate inline, insert, notify; return the cached
chunk.  A throw of the generator propagates before any mutation. -/
def getOrGenerateChunk (worldGen : Int → Int → Except String Chunk)
    (s : CoordState) (chunkX chunkY : Int) : Except String (Chunk × CoordState) :=
  let key := WorldGenerator.getChunkKey chunkX chunkY
  match lookupA s.chunks key with
  | some c => Except.ok (c, s)
  | none =>
    match worldGen chunkX chunkY with
    | Except.error e => Except.error e
    | Except.ok chunk =>
      let s1 : CoordState :=
        { s with chunks := setA s.chunks key chunk
                 genCount := s.genCount + 1
                 notifyCount := s.notifyCount + 1 }
      Except.ok ((lookupA s1.chunks key).getD chunk, s1)

/-- GameStateManager.getOrGenerateChunkAsync (src/game/gameState.ts lines
81-105).  Cache hit: the async function returns the chunk, i.e. the caller
receives a fresh promise already resolved with it.  In-flight hit: the very
same stored promise is returned.  Otherwise a pending promise is created,
the generation body is scheduled as a job, and the promise is recorded in
`chunkGenerationPromises` under the key. -/
def getOrGenerateChunkAsync (s : CoordState) (chunkX chunkY : Int) :
    Nat × CoordState :=
  let key := WorldGenerator.getChunkKey chunkX chunkY
  match lookupA s.chunks key with
  | some c =>
    let pid := s.nextPromiseId
    (pid, { s with promises := setA s.promises pid (PromState.resolved c)
                   nextPromiseId := pid + 1 })
  | none =>
    match lookupA s.inflight key with
    | some pid => (pid, s)
    | none =>
      let pid := s.nextPromiseId
      (pid,
        { s with promises := setA s.promises pid PromState.pending
                 jobs := s.jobs ++ [{ key := key, chunkX := chunkX, chunkY := chunkY, pid := pid }]
                 inflight := setA s.inflight key pid
                 nextPromiseId := pid + 1 })

/-- Executes the first scheduled generation microtask, i.e. the body
`const chunk = this.worldGenerator.generateChunk(chunkX, chunkY);
this.state.chunks.set(key, chunk); this.chunkGenerationPromises.delete(key);
this.notify(); return chunk;`.  If the generator throws, the promise is
rejected and NONE of the subsequent statements run: the cache is untouched
and, in particular, the in-flight entry is not deleted (the chain has no
catch handler). -/
def runNextJob (worldGen : Int → Int → Except String Chunk) (s : CoordState) :
    CoordState :=
  match s.jobs with
  | [] => s
  | j :: rest =>
    match worldGen j.chunkX j.chunkY with
    | Except.ok chunk =>
      { s with jobs := rest
               chunks := setA s.chunks j.key chunk
               inflight := eraseA s.inflight j.key
               promises := setA s.promises j.pid (PromState.resolved chunk)
               notifyCount := s.notifyCount + 1
               genCount := s.genCount + 1 }
    | Except.error e =>
      { s with jobs := rest
               promises := setA s.promises j.pid (PromState.rejected e)
               genCount := s.genCount + 1 }

/-- GameStateManager.mineResource (src/game/gameState.ts lines 107-135).
`tile.resource && tile.resourceAmount` is JS truthiness: the branch is taken
only when `resource` is non-null and `resourceAmount` is non-null and
non-zero. -/
def mineResource (worldGen : Int → Int → Except String Chunk)
    (s : CoordState) (tileX tileY : ℚ) : Except String (Bool × CoordState) :=
  let coords := WorldGenerator.getChunkCoordinates tileX tileY
  match getOrGenerateChunk worldGen s coords.1 coords.2 with
  | Except.error e => Except.error e
  | Except.ok (chunk, s1) =>
    let localTileX : Int := ⌊tileX⌋ - coords.1 * (CHUNK_SIZE : Int)
    let localTileY : Int := ⌊tileY⌋ - coords.2 * (CHUNK_SIZE : Int)
    if localTileX < 0 ∨ localTileX ≥ (CHUNK_SIZE : Int) ∨
        localTileY < 0 ∨ localTileY ≥ (CHUNK_SIZE : Int) then
      Except.ok (false, s1)
    else
      let tile := (chunk.tiles.getD localTileY.toNat []).getD localTileX.toNat defaultTile
      match tile.resource, tile.resourceAmount with
      | some r, some amt =>
        if amt ≠ 0 then
          Except.ok (true, { s1 with inventory := s1.inventory.addOne r
                                     notifyCount := s1.notifyCount + 1 })
        else Except.ok (false, s1)
      | _, _ => Except.ok (false, s1)

/-- The coordinator operations named by the claims. -/
inductive CoordOp where
  | callSync (chunkX chunkY : Int)
  | callAsync (chunkX chunkY : Int)
  | runJob
  | mine (tileX tileY : ℚ)

/-- Effect of one coordinator operation on the state (a thrown exception
leaves the state as it was at the throw point). -/
def stepOp (worldGen : Int → Int → Except String Chunk) (s : CoordState) :
    CoordOp → CoordState
  | CoordOp.callSync cx cy =>
    match getOrGenerateChunk worldGen s cx cy with
    | Except.ok r => r.2
    | Except.error _ => s
  | CoordOp.callAsync cx cy => (getOrGenerateChunkAsync s cx cy).2
  | CoordOp.runJob => runNextJob worldGen s
  | CoordOp.mine tx ty =>
    match mineResource worldGen s tx ty with
    | Except.ok r => r.2
    | Except.error _ => s

/-- Reachability invariant of the cache: every cached entry is the
generator's output for the coordinates its key encodes. -/
def CacheWF (worldGen : Int → Int → Except String Chunk) (s : CoordState) : Prop :=
  ∀ k c, lookupA s.chunks k = some c →
    ∃ cx cy, k = WorldGenerator.getChunkKey cx cy ∧ worldGen cx cy = Except.ok c

/-- Reachability invariant of the job queue: a scheduled generation job
carries the key of its own coordinates. -/
def JobsWF (s : CoordState) : Prop :=
  ∀ j ∈ s.jobs, j.key = WorldGenerator.getChunkKey j.chunkX j.chunkY

inductive WMProm where
  | pending
  | resolvedChunk (c : Chunk)
  | resolvedBitmap (b : Nat)
  | rejected (e : String)
  deriving DecidableEq, Repr

inductive TimerTable where
  | chunkTable
  | textureTable
  deriving DecidableEq, Repr

/-- One `setTimeout` scheduled by a request constructor: on firing it checks
the pending table named by `table` for `reqId` and, if present, deletes the
entry and rejects the captured promise `pid` with `errMsg`. -/
structure Timer where
  table : TimerTable
  reqId : String
  delayMs : Nat
  pid : Nat
  errMsg : String
  deriving DecidableEq, Repr

structure WMState where
  pendingChunkRequests : List (String × Nat)
  pendingTextureRequests : List (String × Nat)
  chunkRequestId : Nat
  textureRequestId : Nat
  promises : List (Nat × WMProm)
  nextPromise : Nat
  timers : List Timer
  deriving DecidableEq, Repr

/-- WorkerManager.generateChunk (lines 189-222): id `chunk_${++counter}`,
pending entry, post to round-robin worker, 5000 ms timeout. -/
def WorkerManager.generateChunk (s : WMState) (chunkX chunkY : Int) (seed : String) :
    Nat × WMState :=
  let pid := s.nextPromise
  let newCounter := s.chunkRequestId + 1
  let id := "chunk_" ++ toString newCounter
  (pid, { s with chunkRequestId := newCounter
                 pendingChunkRequests := setA s.pendingChunkRequests id pid
                 promises := setA s.promises pid WMProm.pending
                 nextPromise := pid + 1
                 timers := s.timers ++
                   [Timer.mk TimerTable.chunkTable id 5000 pid "Chunk generation timeout"] })

/-- The texture variant record sent with a tile request. -/
structure TextureVariant where
  baseColor : String
  noiseColor : String
  noiseOpacity : ℚ
  deriving DecidableEq, Repr

/-- WorkerManager.generateTileTexture (lines 224-252): 3000 ms timeout. -/
def WorkerManager.generateTileTexture (s : WMState) (variant : TextureVariant) :
    Nat × WMState :=
  let pid := s.nextPromise
  let newCounter := s.textureRequestId + 1
  let id := "texture_" ++ toString newCounter
  (pid, { s with textureRequestId := newCounter
                 pendingTextureRequests := setA s.pendingTextureRequests id pid
                 promises := setA s.promises pid WMProm.pending
                 nextPromise := pid + 1
                 timers := s.timers ++
                   [Timer.mk TimerTable.textureTable id 3000 pid "Texture generation timeout"] })

/-- WorkerManager.generateResourceTexture (lines 254-282): 3000 ms timeout. -/
def WorkerManager.generateResourceTexture (s : WMState) (resourceColor : String) :
    Nat × WMState :=
  let pid := s.nextPromise
  let newCounter := s.textureRequestId + 1
  let id := "texture_" ++ toString newCounter
  (pid, { s with textureRequestId := newCounter
                 pendingTextureRequests := setA s.pendingTextureRequests id pid
                 promises := setA s.promises pid WMProm.pending
                 nextPromise := pid + 1
                 timers := s.timers ++
                   [Timer.mk TimerTable.textureTable id 3000 pid "Resource texture generation timeout"] })

/-- WorkerManager.generateChunkTexture (lines 284-312): 5000 ms timeout
("Longer timeout for chunk textures"). -/
def WorkerManager.generateChunkTexture (s : WMState) (chunk : Chunk) :
    Nat × WMState :=
  let pid := s.nextPromise
  let newCounter := s.textureRequestId + 1
  let id := "texture_" ++ toString newCounter
  (pid, { s with textureRequestId := newCounter
                 pendingTextureRequests := setA s.pendingTextureRequests id pid
                 promises := setA s.promises pid WMProm.pending
                 nextPromise := pid + 1
                 timers := s.timers ++
                   [Timer.mk TimerTable.textureTable id 5000 pid "Chunk texture generation timeout"] })

/-- The body of a `setTimeout` callback from any of the four constructors:
`if (pending.has(id)) { pending.delete(id); reject(new Error(msg)); }`. -/
def fireTimer (s : WMState) (t : Timer) : WMState :=
  match t.table with
  | TimerTable.chunkTable =>
    if (lookupA s.pendingChunkRequests t.reqId).isSome then
      { s with pendingChunkRequests := eraseA s.pendingChunkRequests t.reqId
               promises := setA s.promises t.pid (WMProm.rejected t.errMsg) }
    else s
  | TimerTable.textureTable =>
    if (lookupA s.pendingTextureRequests t.reqId).isSome then
      { s with pendingTextureRequests := eraseA s.pendingTextureRequests t.reqId
               promises := setA s.promises t.pid (WMProm.rejected t.errMsg) }
    else s

/-- A validated ChunkWorkerResponse: `{ id, chunk, error? }` (the zod schema
requires `chunk`). -/
structure ChunkWorkerResponseMsg where
  id : String
  chunk : Chunk
  error : Option String
  deriving DecidableEq, Repr

/-- WorkerManager.handleChunkWorkerMessage (lines 82-116): look up the
pending entry for the message id; if absent, do nothing; otherwise remove
it and reject (on error) or resolve the stored promise. -/
def handleChunkWorkerMessage (s : WMState) (m : ChunkWorkerResponseMsg) : WMState :=
  match lookupA s.pendingChunkRequests m.id with
  | none => s
  | some pid =>
    let s1 := { s with pendingChunkRequests := eraseA s.pendingChunkRequests m.id }
    match m.error with
    | some e => { s1 with promises := setA s1.promises pid (WMProm.rejected e) }
    | none => { s1 with promises := setA s1.promises pid (WMProm.resolvedChunk m.chunk) }

/-- A validated TextureWorkerResponse (discriminated union on `type`). -/
inductive TextureWorkerResponseMsg where
  | pregenerateComplete
  | pregenerateError (e : String)
  | texture (id : String) (imageBitmap : Option Nat) (error : Option String)
  deriving DecidableEq, Repr

/-- WorkerManager.handleTextureWorkerMessage (lines 122-173).  Pregenerate
responses return early.  For a texture response with neither error nor
bitmap, the invariant inside the try block throws after the entry has been
deleted; the catch block then finds no pending entry and does nothing, so
the promise stays pending. -/
def handleTextureWorkerMessage (s : WMState) (m : TextureWorkerResponseMsg) : WMState :=
  match m with
  | TextureWorkerResponseMsg.pregenerateComplete => s
  | TextureWorkerResponseMsg.pregenerateError _ => s
  | TextureWorkerResponseMsg.texture id bmp err =>
    match lookupA s.pendingTextureRequests id with
    | none => s
    | some pid =>
      let s1 := { s with pendingTextureRequests := eraseA s.pendingTextureRequests id }
      match err with
      | some e => { s1 with promises := setA s1.promises pid (WMProm.rejected e) }
      | none =>
        match bmp with
        | some b => { s1 with promises := setA s1.promises pid (WMProm.resolvedBitmap b) }
        | none => s1

structure ChunkWorkerRequestMsg where
  id : String
  chunkX : Int
  chunkY : Int
  seed : String
  deriving DecidableEq, Repr

structure ChunkWorkerState where
  generatorSeed : Option String
  chunkCache : List (String × Chunk)
  outbox : List ChunkWorkerResponseMsg
  deriving DecidableEq, Repr

/-- The chunk worker's message handler (src/workers/chunkWorker.ts lines
101-152).  The guard `!generator || generator.constructor.name ===
"WorkerWorldGenerator"` is true for every constructed WorkerWorldGenerator,
so the generator is rebuilt from the request's seed on every message.  The
memo cache is keyed by `${chunkX},${chunkY}` only — the seed is not part of
the key and a cached chunk is returned without consulting the generator.
`ChunkSchema.safeParse` imposes no constraint beyond well-typedness, so the
validation of a generated chunk always succeeds. -/
def chunkWorkerHandleMessage
    (prandoNext : String → Nat → ℚ)
    (createNoise2D : (Nat → ℚ) → Nat → ((ℚ → ℚ → ℚ) × Nat))
    (s : ChunkWorkerState) (m : ChunkWorkerRequestMsg) : ChunkWorkerState :=
  let rebuild := s.generatorSeed.isNone || true
  let s0 := if rebuild then { s with generatorSeed := some m.seed } else s
  let cacheKey := toString m.chunkX ++ "," ++ toString m.chunkY
  match lookupA s0.chunkCache cacheKey with
  | some chunk =>
    { s0 with outbox := s0.outbox ++ [{ id := m.id, chunk := chunk, error := none }] }
  | none =>
    let gen := WorkerWorldGenerator.create prandoNext createNoise2D (s0.generatorSeed.getD m.seed)
    let chunk := WorkerWorldGenerator.generateChunk gen m.chunkX m.chunkY
    { s0 with chunkCache := setA s0.chunkCache cacheKey chunk
              outbox := s0.outbox ++ [{ id := m.id, chunk := chunk, error := none }] }

/-- A concrete noise-field record whose five fields are constant. -/
def constNF (t r e rs ra : ℚ) : NoiseFields :=
  { terrainNoise := fun _ _ => t
    resourceNoise := fun _ _ => r
    elevationNoise := fun _ _ => e
    resourceSpawnNoise := fun _ _ => rs
    resourceAmountNoise := fun _ _ => ra }

/-- A trivial always-succeeding stand-in for worldGenerator.generateChunk,
used to instantiate coordinator theorems on concrete states. -/
def trivialGen : Int → Int → Except String Chunk :=
  fun cx cy => Except.ok { x := cx, y := cy, tiles := [] }

/-- An always-throwing stand-in for worldGenerator.generateChunk. -/
def failingGen : Int → Int → Except String Chunk :=
  fun _ _ => Except.error "boom"

/-- The coordinator state of a fresh GameStateManager with empty cache. -/
def emptyCoordState : CoordState :=
  { chunks := []
    inventory := { iron := 0, copper := 0, coal := 0, wood := 0, stone := 0 }
    inflight := []
    jobs := []
    promises := []
    nextPromiseId := 0
    notifyCount := 0
    genCount := 0 }

/-- A coordinator state whose cache already holds chunk (0,0). -/
def cachedCoordState : CoordState :=
  { chunks := setA [] (WorldGenerator.getChunkKey 0 0) { x := 0, y := 0, tiles := [] }
    inventory := { iron := 0, copper := 0, coal := 0, wood := 0, stone := 0 }
    inflight := []
    jobs := []
    promises := []
    nextPromiseId := 0
    notifyCount := 0
    genCount := 1 }

/-- C8 counterexample state: the failed generation for chunk (0,0). -/
def failedCoordState : CoordState :=
  runNextJob failingGen (getOrGenerateChunkAsync emptyCoordState 0 0).2

/-- A dispatcher state with one pending chunk request and one pending
texture request. -/
def wmWitnessState : WMState :=
  { pendingChunkRequests := [("chunk_1", 0)]
    pendingTextureRequests := [("texture_1", 1)]
    chunkRequestId := 1
    textureRequestId := 1
    promises := [(0, WMProm.pending), (1, WMProm.pending)]
    nextPromise := 2
    timers := [Timer.mk TimerTable.chunkTable "chunk_1" 5000 0 "Chunk generation timeout",
               Timer.mk TimerTable.textureTable "texture_1" 3000 1 "Texture generation timeout"] }

/-- Trivial noise-library primitives for concrete worker runs. -/
def prando0 : String → Nat → ℚ := fun _ _ => 0

/-- Trivial createNoise2D stand-in: constant-zero noise, consumes no
draws. -/
def createNoise2D0 : (Nat → ℚ) → Nat → ((ℚ → ℚ → ℚ) × Nat) :=
  fun _ i => (fun _ _ => 0, i)

/-- A chunk worker before its first message. -/
def freshWorkerState : ChunkWorkerState :=
  { generatorSeed := none, chunkCache := [], outbox := [] }

theorem WorldGenerator.tiles_length (g : NoiseFields) (cx cy : Int) :
    (WorldGenerator.generateChunk g cx cy).tiles.length = 32 := by
  simp [WorldGenerator.generateChunk, CHUNK_SIZE]

theorem WorldGenerator.tile_getD (g : NoiseFields) (cx cy : Int) (x y : Nat)
    (hx : x < 32) (hy : y < 32) :
    ((WorldGenerator.generateChunk g cx cy).tiles.getD y []).getD x defaultTile
      = tileAt g (cx * 32 + (x : Int)) (cy * 32 + (y : Int)) := by
  simp only [WorldGenerator.generateChunk, CHUNK_SIZE]
  simp only [List.getD_eq_getElem?_getD, List.getElem?_map, List.getElem?_range hx,
    List.getElem?_range hy, Option.map_some', Option.getD_some]
  rfl

theorem charVal_digitChar : ∀ k, k < 10 → charVal (Nat.digitChar k) = k := by
  decide

theorem digitChar_ne_comma_dash : ∀ k, k < 10 →
    Nat.digitChar k ≠ ',' ∧ Nat.digitChar k ≠ '-' := by
  decide

theorem toDigitsCore_foldl (fuel : Nat) :
    ∀ (n : Nat) (ds : List Char) (a : Nat), n < fuel →
      (Nat.toDigitsCore 10 fuel n ds).foldl (fun b c => b * 10 + charVal c) a
        = ds.foldl (fun b c => b * 10 + charVal c) (a * 10 ^ numLen n + n) := by
  induction fuel with
  | zero => intro n ds a h; omega
  | succ fuel ih =>
    intro n ds a h
    simp only [Nat.toDigitsCore]
    by_cases h10 : n / 10 = 0
    · have hn : n < 10 := by omega
      simp only [h10, if_pos]
      rw [List.foldl_cons, charVal_digitChar (n % 10) (Nat.mod_lt n (by omega)),
        numLen, if_pos hn]
      have : n % 10 = n := Nat.mod_eq_of_lt hn
      rw [this, pow_one]
    · have hlt : n / 10 < fuel := by
        have hself : n / 10 < n := Nat.div_lt_self (by omega) (by omega)
        omega
      rw [if_neg h10, ih (n / 10) _ a hlt, List.foldl_cons,
        charVal_digitChar (n % 10) (Nat.mod_lt n (by omega))]
      have hlen : numLen n = numLen (n / 10) + 1 := by
        rw [numLen]
        have : ¬ n < 10 := by omega
        simp [this]
      rw [hlen]
      congr 1
      have hdm : n / 10 * 10 + n % 10 = n := by omega
      rw [pow_succ, Nat.add_mul, ← Nat.mul_assoc, Nat.add_assoc, hdm]

theorem toDigitsCore_chars (fuel : Nat) :
    ∀ (n : Nat) (ds : List Char) (c : Char), c ∈ Nat.toDigitsCore 10 fuel n ds →
      (∃ k, k < 10 ∧ c = Nat.digitChar k) ∨ c ∈ ds := by
  induction fuel with
  | zero => intro n ds c hc; exact Or.inr hc
  | succ fuel ih =>
    intro n ds c hc
    simp only [Nat.toDigitsCore] at hc
    by_cases h10 : n / 10 = 0
    · rw [if_pos h10] at hc
      rcases List.mem_cons.mp hc with h | h
      · exact Or.inl ⟨n % 10, Nat.mod_lt n (by omega), h⟩
      · exact Or.inr h
    · rw [if_neg h10] at hc
      rcases ih (n / 10) _ c hc with h | h
      · exact Or.inl h
      · rcases List.mem_cons.mp h with h | h
        · exact Or.inl ⟨n % 10, Nat.mod_lt n (by omega), h⟩
        · exact Or.inr h

theorem natRepr_chars {n : Nat} {c : Char} (hc : c ∈ (Nat.repr n).data) :
    ∃ k, k < 10 ∧ c = Nat.digitChar k := by
  have : c ∈ Nat.toDigitsCore 10 (n + 1) n [] := hc
  rcases toDigitsCore_chars (n + 1) n [] c this with h | h
  · exact h
  · cases h

theorem natRepr_no_comma (n : Nat) : ',' ∉ (Nat.repr n).data := by
  intro hmem
  rcases natRepr_chars hmem with ⟨k, hk, he⟩
  exact (digitChar_ne_comma_dash k hk).1 he.symm

theorem natRepr_no_dash (n : Nat) : '-' ∉ (Nat.repr n).data := by
  intro hmem
  rcases natRepr_chars hmem with ⟨k, hk, he⟩
  exact (digitChar_ne_comma_dash k hk).2 he.symm

theorem natRepr_injective : Function.Injective Nat.repr := by
  intro m n h
  have hd : Nat.toDigits 10 m = Nat.toDigits 10 n := congrArg String.data h
  have hm := toDigitsCore_foldl (m + 1) m [] 0 (by omega)
  have hn := toDigitsCore_foldl (n + 1) n [] 0 (by omega)
  simp only [List.foldl_nil, Nat.zero_mul, Nat.zero_add] at hm hn
  rw [show Nat.toDigitsCore 10 (m + 1) m [] = Nat.toDigits 10 m from rfl, hd] at hm
  rw [show Nat.toDigitsCore 10 (n + 1) n [] = Nat.toDigits 10 n from rfl] at hn
  omega

theorem string_data_append (s t : String) : (s ++ t).data = s.data ++ t.data := rfl

theorem intToString_no_comma (i : Int) : ',' ∉ (toString i).data := by
  cases i with
  | ofNat m => exact natRepr_no_comma m
  | negSucc m =>
    show ',' ∉ ('-' :: (Nat.repr (m + 1)).data)
    intro hmem
    rcases List.mem_cons.mp hmem with h | h
    · cases h
    · exact natRepr_no_comma (m + 1) h

theorem intToString_injective : Function.Injective (fun i : Int => toString i) := by
  intro i j h
  cases i with
  | ofNat m =>
    cases j with
    | ofNat n => exact congrArg Int.ofNat (natRepr_injective h)
    | negSucc n =>
      exfalso
      have hd : (Nat.repr m).data = '-' :: (Nat.repr (n + 1)).data := congrArg String.data h
      exact natRepr_no_dash m (hd ▸ List.mem_cons_self '-' _)
  | negSucc m =>
    cases j with
    | ofNat n =>
      exfalso
      have hd : (Nat.repr n).data = '-' :: (Nat.repr (m + 1)).data := congrArg String.data h.symm
      exact natRepr_no_dash n (hd ▸ List.mem_cons_self '-' _)
    | negSucc n =>
      have hd : '-' :: (Nat.repr (m + 1)).data = '-' :: (Nat.repr (n + 1)).data :=
        congrArg String.data h
      have : Nat.repr (m + 1) = Nat.repr (n + 1) := by
        apply String.ext
        exact (List.cons.inj hd).2
      have hmn := natRepr_injective this
      exact congrArg Int.negSucc (by omega)

theorem append_comma_inj : ∀ (l1 : List Char) (r1 : List Char) (l2 : List Char) (r2 : List Char),
    ',' ∉ l1 → ',' ∉ l2 → l1 ++ ',' :: r1 = l2 ++ ',' :: r2 → l1 = l2 ∧ r1 = r2 := by
  intro l1
  induction l1 with
  | nil =>
    intro r1 l2 r2 _ h2 h
    cases l2 with
    | nil => exact ⟨rfl, (List.cons.inj h).2⟩
    | cons b t =>
      exfalso
      have hb : b = ',' := (List.cons.inj h).1.symm
      exact h2 (hb ▸ List.mem_cons_self b t)
  | cons a t ih =>
    intro r1 l2 r2 h1 h2 h
    cases l2 with
    | nil =>
      exfalso
      have ha : a = ',' := (List.cons.inj h).1
      exact h1 (ha ▸ List.mem_cons_self a t)
    | cons b t2 =>
      have hab := List.cons.inj h
      have hrest := ih r1 t2 r2 (fun hm => h1 (List.mem_cons_of_mem a hm))
        (fun hm => h2 (List.mem_cons_of_mem b hm)) hab.2
      exact ⟨by rw [hab.1, hrest.1], hrest.2⟩

theorem getChunkKey_injective {x1 y1 x2 y2 : Int}
    (h : WorldGenerator.getChunkKey x1 y1 = WorldGenerator.getChunkKey x2 y2) :
    x1 = x2 ∧ y1 = y2 := by
  have hd : (toString x1).data ++ ',' :: (toString y1).data
      = (toString x2).data ++ ',' :: (toString y2).data := by
    have := congrArg String.data h
    simpa [WorldGenerator.getChunkKey, string_data_append, List.append_assoc] using this
  have hsplit := append_comma_inj _ _ _ _ (intToString_no_comma x1) (intToString_no_comma x2) hd
  exact ⟨intToString_injective (String.ext hsplit.1), intToString_injective (String.ext hsplit.2)⟩

theorem lookupA_nil {κ α : Type} [DecidableEq κ] (k : κ) :
    lookupA (α := α) [] k = none := rfl

theorem lookupA_setA_self {κ α : Type} [DecidableEq κ] (m : List (κ × α)) (k : κ) (v : α) :
    lookupA (setA m k v) k = some v := by
  simp [lookupA, setA, List.find?_cons]

theorem find?_eraseA_ne {κ α : Type} [DecidableEq κ] (m : List (κ × α)) (k k2 : κ)
    (h : k2 ≠ k) :
    (eraseA m k).find? (fun e => e.1 = k2) = m.find? (fun e => e.1 = k2) := by
  induction m with
  | nil => rfl
  | cons e t ih =>
    simp only [eraseA, List.filter_cons] at *
    by_cases he : e.1 = k
    · have h1 : (decide (e.1 ≠ k)) = false := by simp [he]
      rw [h1]
      simp only [Bool.false_eq_true, if_false]
      rw [ih, List.find?_cons_of_neg]
      simp only [he, decide_eq_true_eq]
      exact fun hc => h hc.symm
    · have h1 : (decide (e.1 ≠ k)) = true := by simp [he]
      rw [h1]
      simp only [if_true]
      by_cases he2 : e.1 = k2
      · rw [List.find?_cons_of_pos, List.find?_cons_of_pos] <;> simp [he2]
      · rw [List.find?_cons_of_neg, List.find?_cons_of_neg, ih] <;> simp [he2]

theorem find?_eraseA_self {κ α : Type} [DecidableEq κ] (m : List (κ × α)) (k : κ) :
    (eraseA m k).find? (fun e => e.1 = k) = none := by
  induction m with
  | nil => rfl
  | cons e t ih =>
    simp only [eraseA, List.filter_cons] at *
    by_cases he : e.1 = k
    · have h1 : (decide (e.1 ≠ k)) = false := by simp [he]
      rw [h1]
      simp only [Bool.false_eq_true, if_false]
      exact ih
    · have h1 : (decide (e.1 ≠ k)) = true := by simp [he]
      rw [h1]
      simp only [if_true]
      rw [List.find?_cons_of_neg, ih]
      simp [he]

theorem lookupA_setA_ne {κ α : Type} [DecidableEq κ] (m : List (κ × α)) (k k2 : κ) (v : α)
    (h : k2 ≠ k) : lookupA (setA m k v) k2 = lookupA m k2 := by
  simp only [lookupA, setA]
  rw [List.find?_cons_of_neg, find?_eraseA_ne m k k2 h]
  simp [Ne.symm h]

theorem lookupA_eraseA_self {κ α : Type} [DecidableEq κ] (m : List (κ × α)) (k : κ) :
    lookupA (eraseA m k) k = none := by
  simp only [lookupA]
  rw [find?_eraseA_self]
  rfl

theorem lookupA_eraseA_ne {κ α : Type} [DecidableEq κ] (m : List (κ × α)) (k k2 : κ)
    (h : k2 ≠ k) : lookupA (eraseA m k) k2 = lookupA m k2 := by
  simp only [lookupA]
  rw [find?_eraseA_ne m k k2 h]

theorem async_chunks_eq (s : CoordState) (cx cy : Int) :
    (getOrGenerateChunkAsync s cx cy).2.chunks = s.chunks := by
  unfold getOrGenerateChunkAsync
  cases h1 : lookupA s.chunks (WorldGenerator.getChunkKey cx cy) with
  | some c => simp [h1]
  | none =>
    cases h2 : lookupA s.inflight (WorldGenerator.getChunkKey cx cy) with
    | some pid => simp [h1, h2]
    | none => simp [h1, h2]

theorem async_genCount_eq (s : CoordState) (cx cy : Int) :
    (getOrGenerateChunkAsync s cx cy).2.genCount = s.genCount := by
  unfold getOrGenerateChunkAsync
  cases h1 : lookupA s.chunks (WorldGenerator.getChunkKey cx cy) with
  | some c => simp [h1]
  | none =>
    cases h2 : lookupA s.inflight (WorldGenerator.getChunkKey cx cy) with
    | some pid => simp [h1, h2]
    | none => simp [h1, h2]

theorem getOrGenerateChunk_preserves (worldGen : Int → Int → Except String Chunk)
    (s : CoordState) (cx cy : Int) (k : String) (c : Chunk) (r : Chunk × CoordState)
    (hk : lookupA s.chunks k = some c)
    (h : getOrGenerateChunk worldGen s cx cy = Except.ok r) :
    lookupA r.2.chunks k = some c := by
  unfold getOrGenerateChunk at h
  cases h1 : lookupA s.chunks (WorldGenerator.getChunkKey cx cy) with
  | some c2 =>
    simp only [h1] at h
    injection h with h2
    subst h2
    exact hk
  | none =>
    cases h2 : worldGen cx cy with
    | error e =>
      simp only [h1, h2] at h
      cases h
    | ok chunk =>
      simp only [h1, h2] at h
      injection h with h3
      subst h3
      by_cases hkk : k = WorldGenerator.getChunkKey cx cy
      · rw [hkk] at hk
        rw [hk] at h1
        cases h1
      · show lookupA (setA s.chunks (WorldGenerator.getChunkKey cx cy) chunk) k = some c
        rw [lookupA_setA_ne _ _ _ _ hkk]
        exact hk

theorem mineResource_preserves (worldGen : Int → Int → Except String Chunk)
    (s : CoordState) (tx ty : ℚ) (k : String) (c : Chunk) (r : Bool × CoordState)
    (hk : lookupA s.chunks k = some c)
    (h : mineResource worldGen s tx ty = Except.ok r) :
    lookupA r.2.chunks k = some c := by
  unfold mineResource at h
  cases h0 : getOrGenerateChunk worldGen s (WorldGenerator.getChunkCoordinates tx ty).1
      (WorldGenerator.getChunkCoordinates tx ty).2 with
  | error e =>
    simp only [h0] at h
    cases h
  | ok p =>
    have hs1 : lookupA p.2.chunks k = some c :=
      getOrGenerateChunk_preserves worldGen s _ _ k c p hk h0
    simp only [h0] at h
    split at h
    · injection h with h2
      subst h2
      exact hs1
    · split at h
      · split at h
        · injection h with h2
          subst h2
          exact hs1
        · injection h with h2
          subst h2
          exact hs1
      · injection h with h2
        subst h2
        exact hs1

theorem runNextJob_preserves (worldGen : Int → Int → Except String Chunk)
    (s : CoordState) (k : String) (c : Chunk)
    (hwf : CacheWF worldGen s) (hjobs : JobsWF s)
    (hk : lookupA s.chunks k = some c) :
    lookupA (runNextJob worldGen s).chunks k = some c := by
  unfold runNextJob
  split
  · exact hk
  case _ j rest heq =>
    split
    case _ chunk hgen =>
      by_cases hkk : k = j.key
      · subst hkk
        rcases hwf _ _ hk with ⟨cx, cy, hkey, hgenc⟩
        have hjkey : j.key = WorldGenerator.getChunkKey j.chunkX j.chunkY :=
          hjobs j (heq ▸ List.mem_cons_self j rest)
        have hcoords := getChunkKey_injective (hkey.symm.trans hjkey)
        rw [← hcoords.1, ← hcoords.2, hgenc] at hgen
        cases hgen
        show lookupA (setA s.chunks j.key c) j.key = some c
        exact lookupA_setA_self _ _ _
      · show lookupA (setA s.chunks j.key chunk) k = some c
        rw [lookupA_setA_ne _ _ _ _ hkk]
        exact hk
    · exact hk

/-- The cached chunk at any key survives every coordinator operation. -/
theorem stepOp_chunks_preserved (worldGen : Int → Int → Except String Chunk)
    (s : CoordState) (op : CoordOp) (k : String) (c : Chunk)
    (hwf : CacheWF worldGen s) (hjobs : JobsWF s)
    (hk : lookupA s.chunks k = some c) :
    lookupA (stepOp worldGen s op).chunks k = some c := by
  cases op with
  | callSync cx cy =>
    simp only [stepOp]
    split
    case _ r hr => exact getOrGenerateChunk_preserves worldGen s cx cy k c r hk hr
    case _ => exact hk
  | callAsync cx cy =>
    simp only [stepOp]
    rw [async_chunks_eq]
    exact hk
  | runJob => exact runNextJob_preserves worldGen s k c hwf hjobs hk
  | mine tx ty =>
    simp only [stepOp]
    split
    case _ r hr => exact mineResource_preserves worldGen s tx ty k c r hk hr
    case _ => exact hk

theorem getOrGenerateChunk_jobs (worldGen : Int → Int → Except String Chunk)
    (s : CoordState) (cx cy : Int) (r : Chunk × CoordState)
    (h : getOrGenerateChunk worldGen s cx cy = Except.ok r) : r.2.jobs = s.jobs := by
  unfold getOrGenerateChunk at h
  cases h1 : lookupA s.chunks (WorldGenerator.getChunkKey cx cy) with
  | some c2 =>
    simp only [h1] at h
    injection h with h2
    subst h2
    rfl
  | none =>
    cases h2 : worldGen cx cy with
    | error e =>
      simp only [h1, h2] at h
      cases h
    | ok chunk =>
      simp only [h1, h2] at h
      injection h with h3
      subst h3
      rfl

theorem cacheWF_getOrGenerateChunk (worldGen : Int → Int → Except String Chunk)
    (s : CoordState) (cx cy : Int) (r : Chunk × CoordState)
    (hwf : CacheWF worldGen s)
    (h : getOrGenerateChunk worldGen s cx cy = Except.ok r) :
    CacheWF worldGen r.2 := by
  unfold getOrGenerateChunk at h
  cases h1 : lookupA s.chunks (WorldGenerator.getChunkKey cx cy) with
  | some c2 =>
    simp only [h1] at h
    injection h with h2
    subst h2
    exact hwf
  | none =>
    cases h2 : worldGen cx cy with
    | error e =>
      simp only [h1, h2] at h
      cases h
    | ok chunk =>
      simp only [h1, h2] at h
      injection h with h3
      subst h3
      intro k c hkc
      dsimp only at hkc
      by_cases hkk : k = WorldGenerator.getChunkKey cx cy
      · subst hkk
        rw [lookupA_setA_self] at hkc
        injection hkc with hc
        subst hc
        exact ⟨cx, cy, rfl, h2⟩
      · rw [lookupA_setA_ne _ _ _ _ hkk] at hkc
        exact hwf _ _ hkc

theorem mineResource_chunks_jobs (worldGen : Int → Int → Except String Chunk)
    (s : CoordState) (tx ty : ℚ) (r : Bool × CoordState)
    (h : mineResource worldGen s tx ty = Except.ok r) :
    ∃ p, getOrGenerateChunk worldGen s (WorldGenerator.getChunkCoordinates tx ty).1
        (WorldGenerator.getChunkCoordinates tx ty).2 = Except.ok p ∧
      r.2.chunks = p.2.chunks ∧ r.2.jobs = p.2.jobs := by
  unfold mineResource at h
  cases h0 : getOrGenerateChunk worldGen s (WorldGenerator.getChunkCoordinates tx ty).1
      (WorldGenerator.getChunkCoordinates tx ty).2 with
  | error e =>
    simp only [h0] at h
    cases h
  | ok p =>
    refine ⟨p, rfl, ?_⟩
    simp only [h0] at h
    split at h
    · injection h with h2
      subst h2
      exact ⟨rfl, rfl⟩
    · split at h
      · split at h
        · injection h with h2
          subst h2
          exact ⟨rfl, rfl⟩
        · injection h with h2
          subst h2
          exact ⟨rfl, rfl⟩
      · injection h with h2
        subst h2
        exact ⟨rfl, rfl⟩

/-- CacheWF is preserved by every coordinator operation. -/
theorem stepOp_cacheWF (worldGen : Int → Int → Except String Chunk)
    (s : CoordState) (op : CoordOp)
    (hwf : CacheWF worldGen s) (hjobs : JobsWF s) :
    CacheWF worldGen (stepOp worldGen s op) := by
  cases op with
  | callSync cx cy =>
    simp only [stepOp]
    split
    case _ r hr => exact cacheWF_getOrGenerateChunk worldGen s cx cy r hwf hr
    case _ => exact hwf
  | callAsync cx cy =>
    simp only [stepOp]
    intro k c hkc
    rw [async_chunks_eq] at hkc
    exact hwf _ _ hkc
  | runJob =>
    simp only [stepOp]
    unfold runNextJob
    cases hj : s.jobs with
    | nil => exact hwf
    | cons j rest =>
      cases h2 : worldGen j.chunkX j.chunkY with
      | ok chunk =>
        simp only [hj, h2]
        intro k c hkc
        by_cases hkk : k = j.key
        · subst hkk
          rw [lookupA_setA_self] at hkc
          injection hkc with hc
          subst hc
          exact ⟨j.chunkX, j.chunkY, hjobs j (hj ▸ List.mem_cons_self j rest), h2⟩
        · rw [lookupA_setA_ne _ _ _ _ hkk] at hkc
          exact hwf _ _ hkc
      | error e =>
        simp only [hj, h2]
        intro k c hkc
        exact hwf _ _ hkc
  | mine tx ty =>
    simp only [stepOp]
    split
    case _ r hr =>
      rcases mineResource_chunks_jobs worldGen s tx ty r hr with ⟨p, hp, hchunks, _⟩
      intro k c hkc
      rw [hchunks] at hkc
      exact cacheWF_getOrGenerateChunk worldGen s _ _ p hwf hp _ _ hkc
    case _ => exact hwf

/-- JobsWF is preserved by every coordinator operation. -/
theorem stepOp_jobsWF (worldGen : Int → Int → Except String Chunk)
    (s : CoordState) (op : CoordOp) (hjobs : JobsWF s) :
    JobsWF (stepOp worldGen s op) := by
  cases op with
  | callSync cx cy =>
    simp only [stepOp]
    split
    case _ r hr =>
      intro j hjmem
      rw [getOrGenerateChunk_jobs worldGen s cx cy r hr] at hjmem
      exact hjobs j hjmem
    case _ => exact hjobs
  | callAsync cx cy =>
    simp only [stepOp]
    unfold getOrGenerateChunkAsync
    cases h1 : lookupA s.chunks (WorldGenerator.getChunkKey cx cy) with
    | some c =>
      simp only [h1]
      intro j hjmem
      exact hjobs j hjmem
    | none =>
      cases h2 : lookupA s.inflight (WorldGenerator.getChunkKey cx cy) with
      | some pid =>
        simp only [h1, h2]
        intro j hjmem
        exact hjobs j hjmem
      | none =>
        simp only [h1, h2]
        intro j hjmem
        rcases List.mem_append.mp hjmem with hold | hnew
        · exact hjobs j hold
        · rcases List.mem_singleton.mp hnew with rfl
          rfl
  | runJob =>
    simp only [stepOp]
    unfold runNextJob
    cases hj : s.jobs with
    | nil => exact hjobs
    | cons j rest =>
      cases h2 : worldGen j.chunkX j.chunkY with
      | ok chunk =>
        simp only [hj, h2]
        intro j2 hjmem
        exact hjobs j2 (hj ▸ List.mem_cons_of_mem j hjmem)
      | error e =>
        simp only [hj, h2]
        intro j2 hjmem
        exact hjobs j2 (hj ▸ List.mem_cons_of_mem j hjmem)
  | mine tx ty =>
    simp only [stepOp]
    split
    case _ r hr =>
      rcases mineResource_chunks_jobs worldGen s tx ty r hr with ⟨p, hp, _, hjobs2⟩
      intro j hjmem
      rw [hjobs2, getOrGenerateChunk_jobs worldGen s _ _ p hp] at hjmem
      exact hjobs j hjmem
    case _ => exact hjobs

theorem WorldGenerator.row_length (g : NoiseFields) (cx cy : Int) (y : Nat) (hy : y < 32) :
    ((WorldGenerator.generateChunk g cx cy).tiles.getD y []).length = 32 := by
  simp only [WorldGenerator.generateChunk, CHUNK_SIZE]
  rw [List.getD_eq_getElem?_getD, List.getElem?_map, List.getElem?_range hy,
    Option.map_some', Option.getD_some]
  simp

/-- C1: for every seed and chunk coordinates, the main-thread
WorldGenerator.generateChunk and the worker-side
WorkerWorldGenerator.generateChunk produce identical chunks — same
coordinates and identical 32×32 tile grids — whatever the noise library
primitives compute, and calling either one twice with the same inputs
yields the same result. -/
theorem generators_equivalent_and_deterministic
    (prandoNext : String → Nat → ℚ)
    (createNoise2D : (Nat → ℚ) → Nat → ((ℚ → ℚ → ℚ) × Nat))
    (seed : String) (cx cy : Int) :
    WorldGenerator.generateChunk (WorldGenerator.create prandoNext createNoise2D seed) cx cy
      = WorkerWorldGenerator.generateChunk
          (WorkerWorldGenerator.create prandoNext createNoise2D seed) cx cy
    ∧ (WorldGenerator.generateChunk (WorldGenerator.create prandoNext createNoise2D seed) cx cy).x = cx
    ∧ (WorldGenerator.generateChunk (WorldGenerator.create prandoNext createNoise2D seed) cx cy).y = cy
    ∧ (WorldGenerator.generateChunk (WorldGenerator.create prandoNext createNoise2D seed) cx cy).tiles.length = 32
    ∧ ((WorldGenerator.generateChunk (WorldGenerator.create prandoNext createNoise2D seed) cx cy).tiles.all
        (fun row => row.length == 32)) = true
    ∧ WorldGenerator.generateChunk (WorldGenerator.create prandoNext createNoise2D seed) cx cy
        = WorldGenerator.generateChunk (WorldGenerator.create prandoNext createNoise2D seed) cx cy
    ∧ WorkerWorldGenerator.generateChunk (WorkerWorldGenerator.create prandoNext createNoise2D seed) cx cy
        = WorkerWorldGenerator.generateChunk (WorkerWorldGenerator.create prandoNext createNoise2D seed) cx cy := by
  refine ⟨rfl, rfl, rfl, WorldGenerator.tiles_length _ _ _, ?_, rfl, rfl⟩
  rw [List.all_eq_true]
  intro row hrow
  simp only [WorldGenerator.generateChunk, CHUNK_SIZE] at hrow
  rcases List.mem_map.mp hrow with ⟨i, _, hrow2⟩
  rw [← hrow2]
  simp

/-- C4: per-tile formulas of the generator: terrain threshold -0.1 decides
land vs water; elevation uses threshold 0 on land and the asymmetric
threshold 0.2 on water; a resource is present exactly on land with spawn
noise above 0.7, picked by the descending resource-noise bands
0.6, 0.3, 0, -0.3. -/
theorem tile_formulas (g : NoiseFields) (cx cy : Int) (x y : Nat)
    (hx : x < 32) (hy : y < 32) (t : Tile) (tX tY : Int)
    (ht : t = ((WorldGenerator.generateChunk g cx cy).tiles.getD y []).getD x defaultTile)
    (htX : tX = cx * 32 + (x : Int)) (htY : tY = cy * 32 + (y : Int)) :
    (t.type = TileType.land ↔ g.terrainNoise ((tX : ℚ) * 0.015) ((tY : ℚ) * 0.015) > -0.1)
    ∧ (t.type = TileType.land →
        t.elevation = (if g.elevationNoise ((tX : ℚ) * 0.025) ((tY : ℚ) * 0.025) > 0 then 1 else 0))
    ∧ (t.type = TileType.water →
        t.elevation = (if g.elevationNoise ((tX : ℚ) * 0.025) ((tY : ℚ) * 0.025) > 0.2 then 0 else 1))
    ∧ (t.resource.isSome = true ↔
        (t.type = TileType.land ∧ g.resourceSpawnNoise ((tX : ℚ) * 0.1) ((tY : ℚ) * 0.1) > 0.7))
    ∧ (t.type = TileType.land ∧ g.resourceSpawnNoise ((tX : ℚ) * 0.1) ((tY : ℚ) * 0.1) > 0.7 →
        t.resource = some
          (if g.resourceNoise ((tX : ℚ) * 0.05) ((tY : ℚ) * 0.05) > 0.6 then ResourceType.iron
           else if g.resourceNoise ((tX : ℚ) * 0.05) ((tY : ℚ) * 0.05) > 0.3 then ResourceType.copper
           else if g.resourceNoise ((tX : ℚ) * 0.05) ((tY : ℚ) * 0.05) > 0 then ResourceType.coal
           else if g.resourceNoise ((tX : ℚ) * 0.05) ((tY : ℚ) * 0.05) > -0.3 then ResourceType.stone
           else ResourceType.wood)) := by
  subst ht htX htY
  rw [WorldGenerator.tile_getD g cx cy x y hx hy]
  unfold tileAt
  generalize g.terrainNoise ((↑(cx * 32 + (x : Int)) : ℚ) * 0.015) ((↑(cy * 32 + (y : Int)) : ℚ) * 0.015) = T
  generalize g.elevationNoise ((↑(cx * 32 + (x : Int)) : ℚ) * 0.025) ((↑(cy * 32 + (y : Int)) : ℚ) * 0.025) = E
  generalize g.resourceNoise ((↑(cx * 32 + (x : Int)) : ℚ) * 0.05) ((↑(cy * 32 + (y : Int)) : ℚ) * 0.05) = R
  generalize g.resourceSpawnNoise ((↑(cx * 32 + (x : Int)) : ℚ) * 0.1) ((↑(cy * 32 + (y : Int)) : ℚ) * 0.1) = S
  by_cases hT : T > -0.1 <;> by_cases hS : S > 0.7 <;> simp [hT, hS]

/-- C4 witness: a constant noise field with terrain 0, resource 0,
elevation 0, spawn 1; the tile at (0,0) of chunk (0,0) satisfies all five
per-tile formulas. -/
theorem tile_formulas_witness :
    (0 : Nat) < 32 ∧
    ((((WorldGenerator.generateChunk (constNF 0 0 0 1 0) 0 0).tiles.getD 0 []).getD 0 defaultTile).type = TileType.land ↔
        (constNF 0 0 0 1 0).terrainNoise ((((0 : Int) * 32 + ((0 : Nat) : Int) : Int) : ℚ) * 0.015)
          ((((0 : Int) * 32 + ((0 : Nat) : Int) : Int) : ℚ) * 0.015) > -0.1)
    ∧ ((((WorldGenerator.generateChunk (constNF 0 0 0 1 0) 0 0).tiles.getD 0 []).getD 0 defaultTile).type = TileType.land →
        (((WorldGenerator.generateChunk (constNF 0 0 0 1 0) 0 0).tiles.getD 0 []).getD 0 defaultTile).elevation =
          (if (constNF 0 0 0 1 0).elevationNoise ((((0 : Int) * 32 + ((0 : Nat) : Int) : Int) : ℚ) * 0.025)
              ((((0 : Int) * 32 + ((0 : Nat) : Int) : Int) : ℚ) * 0.025) > 0 then 1 else 0))
    ∧ ((((WorldGenerator.generateChunk (constNF 0 0 0 1 0) 0 0).tiles.getD 0 []).getD 0 defaultTile).type = TileType.water →
        (((WorldGenerator.generateChunk (constNF 0 0 0 1 0) 0 0).tiles.getD 0 []).getD 0 defaultTile).elevation =
          (if (constNF 0 0 0 1 0).elevationNoise ((((0 : Int) * 32 + ((0 : Nat) : Int) : Int) : ℚ) * 0.025)
              ((((0 : Int) * 32 + ((0 : Nat) : Int) : Int) : ℚ) * 0.025) > 0.2 then 0 else 1))
    ∧ ((((WorldGenerator.generateChunk (constNF 0 0 0 1 0) 0 0).tiles.getD 0 []).getD 0 defaultTile).resource.isSome = true ↔
        ((((WorldGenerator.generateChunk (constNF 0 0 0 1 0) 0 0).tiles.getD 0 []).getD 0 defaultTile).type = TileType.land ∧
          (constNF 0 0 0 1 0).resourceSpawnNoise ((((0 : Int) * 32 + ((0 : Nat) : Int) : Int) : ℚ) * 0.1)
            ((((0 : Int) * 32 + ((0 : Nat) : Int) : Int) : ℚ) * 0.1) > 0.7))
    ∧ ((((WorldGenerator.generateChunk (constNF 0 0 0 1 0) 0 0).tiles.getD 0 []).getD 0 defaultTile).type = TileType.land ∧
          (constNF 0 0 0 1 0).resourceSpawnNoise ((((0 : Int) * 32 + ((0 : Nat) : Int) : Int) : ℚ) * 0.1)
            ((((0 : Int) * 32 + ((0 : Nat) : Int) : Int) : ℚ) * 0.1) > 0.7 →
        (((WorldGenerator.generateChunk (constNF 0 0 0 1 0) 0 0).tiles.getD 0 []).getD 0 defaultTile).resource = some
          (if (constNF 0 0 0 1 0).resourceNoise ((((0 : Int) * 32 + ((0 : Nat) : Int) : Int) : ℚ) * 0.05)
              ((((0 : Int) * 32 + ((0 : Nat) : Int) : Int) : ℚ) * 0.05) > 0.6 then ResourceType.iron
           else if (constNF 0 0 0 1 0).resourceNoise ((((0 : Int) * 32 + ((0 : Nat) : Int) : Int) : ℚ) * 0.05)
              ((((0 : Int) * 32 + ((0 : Nat) : Int) : Int) : ℚ) * 0.05) > 0.3 then ResourceType.copper
           else if (constNF 0 0 0 1 0).resourceNoise ((((0 : Int) * 32 + ((0 : Nat) : Int) : Int) : ℚ) * 0.05)
              ((((0 : Int) * 32 + ((0 : Nat) : Int) : Int) : ℚ) * 0.05) > 0 then ResourceType.coal
           else if (constNF 0 0 0 1 0).resourceNoise ((((0 : Int) * 32 + ((0 : Nat) : Int) : Int) : ℚ) * 0.05)
              ((((0 : Int) * 32 + ((0 : Nat) : Int) : Int) : ℚ) * 0.05) > -0.3 then ResourceType.stone
           else ResourceType.wood)) :=
  ⟨by norm_num,
   tile_formulas (constNF 0 0 0 1 0) 0 0 0 0 (by norm_num) (by norm_num) _
     ((0 : Int) * 32 + ((0 : Nat) : Int)) ((0 : Int) * 32 + ((0 : Nat) : Int)) rfl rfl rfl⟩

/-- C5: in every generated chunk, every tile has a resource exactly when it
has a resource amount, and a tile carrying a resource is a land tile
(out-of-range reads yield the default water tile, which also satisfies
both). -/
theorem resource_invariant (g : NoiseFields) (cx cy : Int) (x y : Nat) :
    (((WorldGenerator.generateChunk g cx cy).tiles.getD y []).getD x defaultTile).resource.isSome
      = (((WorldGenerator.generateChunk g cx cy).tiles.getD y []).getD x defaultTile).resourceAmount.isSome
    ∧ ((((WorldGenerator.generateChunk g cx cy).tiles.getD y []).getD x defaultTile).resource = none
       ∨ (((WorldGenerator.generateChunk g cx cy).tiles.getD y []).getD x defaultTile).type = TileType.land) := by
  by_cases hy : y < 32
  · by_cases hx : x < 32
    · rw [WorldGenerator.tile_getD g cx cy x y hx hy]
      unfold tileAt
      generalize g.terrainNoise ((↑(cx * 32 + (x : Int)) : ℚ) * 0.015) ((↑(cy * 32 + (y : Int)) : ℚ) * 0.015) = T
      generalize g.resourceSpawnNoise ((↑(cx * 32 + (x : Int)) : ℚ) * 0.1) ((↑(cy * 32 + (y : Int)) : ℚ) * 0.1) = S
      by_cases hT : T > -0.1 <;> by_cases hS : S > 0.7 <;> simp [hT, hS]
    · have hxe : ((WorldGenerator.generateChunk g cx cy).tiles.getD y []).getD x defaultTile
          = defaultTile := by
        rw [List.getD_eq_getElem?_getD, List.getElem?_eq_none, Option.getD_none]
        rw [WorldGenerator.row_length g cx cy y hy]
        omega
      rw [hxe]
      exact ⟨rfl, Or.inl rfl⟩
  · have hye : (WorldGenerator.generateChunk g cx cy).tiles.getD y [] = [] := by
      rw [List.getD_eq_getElem?_getD, List.getElem?_eq_none, Option.getD_none]
      rw [WorldGenerator.tiles_length]
      omega
    rw [hye, List.getD_nil]
    exact ⟨rfl, Or.inl rfl⟩

/-- C6 (amended): a tile's resourceAmount, when present, equals
floor((amountVal+1)*25)+50; for amountVal in the closed interval [-1, 1]
this lies in [50, 100] (the value 100 is attained at amountVal = 1), and it
lies in [50, 100) whenever amountVal < 1. -/
theorem resource_amount_formula (g : NoiseFields) (cx cy : Int) (x y : Nat)
    (hx : x < 32) (hy : y < 32) (a : Int) (v : ℚ)
    (hv : v = g.resourceAmountNoise ((↑(cx * 32 + (x : Int)) : ℚ) * 0.08) ((↑(cy * 32 + (y : Int)) : ℚ) * 0.08))
    (ha : (((WorldGenerator.generateChunk g cx cy).tiles.getD y []).getD x defaultTile).resourceAmount
      = some a) :
    a = ⌊(v + 1) * 25⌋ + 50
    ∧ (-1 ≤ v → v ≤ 1 → 50 ≤ a ∧ a ≤ 100)
    ∧ (-1 ≤ v → v < 1 → 50 ≤ a ∧ a < 100) := by
  subst hv
  rw [WorldGenerator.tile_getD g cx cy x y hx hy] at ha
  unfold tileAt at ha
  dsimp only at ha
  set A := g.resourceAmountNoise ((↑(cx * 32 + (x : Int)) : ℚ) * 0.08) ((↑(cy * 32 + (y : Int)) : ℚ) * 0.08) with hA
  by_cases hT : g.terrainNoise ((↑(cx * 32 + (x : Int)) : ℚ) * 0.015) ((↑(cy * 32 + (y : Int)) : ℚ) * 0.015) > -0.1
  · by_cases hS : g.resourceSpawnNoise ((↑(cx * 32 + (x : Int)) : ℚ) * 0.1) ((↑(cy * 32 + (y : Int)) : ℚ) * 0.1) > 0.7
    · simp only [hT, hS, if_pos, and_true, if_true] at ha
      injection ha with ha2
      refine ⟨ha2.symm, ?_, ?_⟩
      · intro h1 h2
        have hlow : (0 : Int) ≤ ⌊(A + 1) * 25⌋ := Int.le_floor.mpr (by push_cast; nlinarith)
        have hhigh : ⌊(A + 1) * 25⌋ < 51 := Int.floor_lt.mpr (by push_cast; nlinarith)
        omega
      · intro h1 h2
        have hlow : (0 : Int) ≤ ⌊(A + 1) * 25⌋ := Int.le_floor.mpr (by push_cast; nlinarith)
        have hhigh : ⌊(A + 1) * 25⌋ < 50 := Int.floor_lt.mpr (by push_cast; nlinarith)
        omega
    · have hC : ¬((if g.terrainNoise ((↑(cx * 32 + (x : Int)) : ℚ) * 0.015)
            ((↑(cy * 32 + (y : Int)) : ℚ) * 0.015) > -0.1 then TileType.land else TileType.water)
              = TileType.land ∧
          g.resourceSpawnNoise ((↑(cx * 32 + (x : Int)) : ℚ) * 0.1)
            ((↑(cy * 32 + (y : Int)) : ℚ) * 0.1) > 0.7) := fun hc => hS hc.2
      rw [if_neg hC] at ha
      exact Option.noConfusion ha
  · have hC : ¬((if g.terrainNoise ((↑(cx * 32 + (x : Int)) : ℚ) * 0.015)
          ((↑(cy * 32 + (y : Int)) : ℚ) * 0.015) > -0.1 then TileType.land else TileType.water)
            = TileType.land ∧
        g.resourceSpawnNoise ((↑(cx * 32 + (x : Int)) : ℚ) * 0.1)
          ((↑(cy * 32 + (y : Int)) : ℚ) * 0.1) > 0.7) := by
      rw [if_neg hT]
      simp
    rw [if_neg hC] at ha
    exact Option.noConfusion ha

theorem async_hit (s : CoordState) (cx cy : Int) (c : Chunk)
    (hc : lookupA s.chunks (WorldGenerator.getChunkKey cx cy) = some c) :
    getOrGenerateChunkAsync s cx cy =
      (s.nextPromiseId,
       { s with promises := setA s.promises s.nextPromiseId (PromState.resolved c)
                nextPromiseId := s.nextPromiseId + 1 }) := by
  simp only [getOrGenerateChunkAsync, hc]

theorem async_inflight (s : CoordState) (cx cy : Int) (pid : Nat)
    (hnc : lookupA s.chunks (WorldGenerator.getChunkKey cx cy) = none)
    (hif : lookupA s.inflight (WorldGenerator.getChunkKey cx cy) = some pid) :
    getOrGenerateChunkAsync s cx cy = (pid, s) := by
  simp only [getOrGenerateChunkAsync, hnc, hif]

theorem async_miss (s : CoordState) (cx cy : Int)
    (hnc : lookupA s.chunks (WorldGenerator.getChunkKey cx cy) = none)
    (hni : lookupA s.inflight (WorldGenerator.getChunkKey cx cy) = none) :
    getOrGenerateChunkAsync s cx cy =
      (s.nextPromiseId,
       { s with promises := setA s.promises s.nextPromiseId PromState.pending
                jobs := s.jobs ++
                  [PendingJob.mk (WorldGenerator.getChunkKey cx cy) cx cy s.nextPromiseId]
                inflight := setA s.inflight (WorldGenerator.getChunkKey cx cy) s.nextPromiseId
                nextPromiseId := s.nextPromiseId + 1 }) := by
  simp only [getOrGenerateChunkAsync, hnc, hni]

theorem runNextJob_ok (worldGen : Int → Int → Except String Chunk) (s : CoordState)
    (j : PendingJob) (rest : List PendingJob) (c : Chunk)
    (hj : s.jobs = j :: rest) (hgen : worldGen j.chunkX j.chunkY = Except.ok c) :
    runNextJob worldGen s =
      { s with jobs := rest
               chunks := setA s.chunks j.key c
               inflight := eraseA s.inflight j.key
               promises := setA s.promises j.pid (PromState.resolved c)
               notifyCount := s.notifyCount + 1
               genCount := s.genCount + 1 } := by
  simp only [runNextJob, hj, hgen]

theorem runNextJob_error (worldGen : Int → Int → Except String Chunk) (s : CoordState)
    (j : PendingJob) (rest : List PendingJob) (e : String)
    (hj : s.jobs = j :: rest) (hgen : worldGen j.chunkX j.chunkY = Except.error e) :
    runNextJob worldGen s =
      { s with jobs := rest
               promises := setA s.promises j.pid (PromState.rejected e)
               genCount := s.genCount + 1 } := by
  simp only [runNextJob, hj, hgen]

/-- C2: on an uncached key with nothing in flight, the first
getOrGenerateChunkAsync call schedules exactly one generation job and every
further concurrent call for the same key returns the very same promise
without changing the state (so any number N of concurrent callers share one
future); running the single job performs exactly one generation, resolves
that shared promise with the generated chunk and caches it, so all N
callers receive the same Chunk value. -/
theorem async_dedup (worldGen : Int → Int → Except String Chunk) (s : CoordState)
    (cx cy : Int) (c : Chunk)
    (hgen : worldGen cx cy = Except.ok c)
    (hnc : lookupA s.chunks (WorldGenerator.getChunkKey cx cy) = none)
    (hni : lookupA s.inflight (WorldGenerator.getChunkKey cx cy) = none)
    (hjobs : s.jobs = []) :
    getOrGenerateChunkAsync (getOrGenerateChunkAsync s cx cy).2 cx cy
      = getOrGenerateChunkAsync s cx cy
    ∧ (∀ n, (fun st => (getOrGenerateChunkAsync st cx cy).2)^[n]
        (getOrGenerateChunkAsync s cx cy).2 = (getOrGenerateChunkAsync s cx cy).2)
    ∧ (getOrGenerateChunkAsync s cx cy).2.jobs
        = [PendingJob.mk (WorldGenerator.getChunkKey cx cy) cx cy (getOrGenerateChunkAsync s cx cy).1]
    ∧ (runNextJob worldGen (getOrGenerateChunkAsync s cx cy).2).genCount = s.genCount + 1
    ∧ lookupA (runNextJob worldGen (getOrGenerateChunkAsync s cx cy).2).promises
        (getOrGenerateChunkAsync s cx cy).1 = some (PromState.resolved c)
    ∧ lookupA (runNextJob worldGen (getOrGenerateChunkAsync s cx cy).2).chunks
        (WorldGenerator.getChunkKey cx cy) = some c := by
  have hs1 := async_miss s cx cy hnc hni
  have hcall2 : getOrGenerateChunkAsync (getOrGenerateChunkAsync s cx cy).2 cx cy
      = getOrGenerateChunkAsync s cx cy := by
    rw [hs1]
    exact async_inflight _ cx cy s.nextPromiseId hnc (lookupA_setA_self _ _ _)
  have hrun : runNextJob worldGen (getOrGenerateChunkAsync s cx cy).2 =
      { (getOrGenerateChunkAsync s cx cy).2 with
          jobs := []
          chunks := setA (getOrGenerateChunkAsync s cx cy).2.chunks
            (WorldGenerator.getChunkKey cx cy) c
          inflight := eraseA (getOrGenerateChunkAsync s cx cy).2.inflight
            (WorldGenerator.getChunkKey cx cy)
          promises := setA (getOrGenerateChunkAsync s cx cy).2.promises s.nextPromiseId
            (PromState.resolved c)
          notifyCount := (getOrGenerateChunkAsync s cx cy).2.notifyCount + 1
          genCount := (getOrGenerateChunkAsync s cx cy).2.genCount + 1 } := by
    apply runNextJob_ok worldGen _
      (PendingJob.mk (WorldGenerator.getChunkKey cx cy) cx cy s.nextPromiseId) []
    · rw [hs1]
      simp [hjobs]
    · exact hgen
  refine ⟨hcall2, ?_, ?_, ?_, ?_, ?_⟩
  · intro n
    induction n with
    | zero => rfl
    | succ n ih =>
      rw [Function.iterate_succ_apply, hcall2]
      exact ih
  · rw [hs1]
    simp [hjobs]
  · rw [hrun, hs1]
  · rw [hrun, hs1]
    exact lookupA_setA_self _ _ _
  · rw [hrun, hs1]
    exact lookupA_setA_self _ _ _

/-- C2 witness: the dedup theorem applied to the empty coordinator state at
chunk (0,0) with the trivial generator. -/
theorem async_dedup_witness :
    trivialGen 0 0 = Except.ok { x := 0, y := 0, tiles := [] }
    ∧ lookupA emptyCoordState.chunks (WorldGenerator.getChunkKey 0 0) = none
    ∧ lookupA emptyCoordState.inflight (WorldGenerator.getChunkKey 0 0) = none
    ∧ emptyCoordState.jobs = []
    ∧ getOrGenerateChunkAsync (getOrGenerateChunkAsync emptyCoordState 0 0).2 0 0
        = getOrGenerateChunkAsync emptyCoordState 0 0
    ∧ (getOrGenerateChunkAsync emptyCoordState 0 0).2.jobs
        = [PendingJob.mk (WorldGenerator.getChunkKey 0 0) 0 0 (getOrGenerateChunkAsync emptyCoordState 0 0).1]
    ∧ (runNextJob trivialGen (getOrGenerateChunkAsync emptyCoordState 0 0).2).genCount
        = emptyCoordState.genCount + 1
    ∧ lookupA (runNextJob trivialGen (getOrGenerateChunkAsync emptyCoordState 0 0).2).promises
        (getOrGenerateChunkAsync emptyCoordState 0 0).1
        = some (PromState.resolved { x := 0, y := 0, tiles := [] })
    ∧ lookupA (runNextJob trivialGen (getOrGenerateChunkAsync emptyCoordState 0 0).2).chunks
        (WorldGenerator.getChunkKey 0 0) = some { x := 0, y := 0, tiles := [] } := by
  have h := async_dedup trivialGen emptyCoordState 0 0 { x := 0, y := 0, tiles := [] }
    rfl rfl rfl rfl
  exact ⟨rfl, rfl, rfl, rfl, h.1, h.2.2.1, h.2.2.2.1, h.2.2.2.2.1, h.2.2.2.2.2⟩

/-- C3: once a key is cached, the synchronous path returns the cached chunk
without generating or mutating anything; the asynchronous path neither
schedules a generation nor touches the cache, the in-flight table or the
generation counter, and resolves immediately with the cached chunk; and
under the coordinator's reachability invariants no operation (sync call,
async call, scheduled generation job, or mineResource — which only updates
the inventory) ever changes the chunk stored under any cached key. -/
theorem cache_stability (worldGen : Int → Int → Except String Chunk) (s : CoordState)
    (cx cy : Int) (c : Chunk)
    (hwf : CacheWF worldGen s) (hjobs : JobsWF s)
    (hc : lookupA s.chunks (WorldGenerator.getChunkKey cx cy) = some c) :
    getOrGenerateChunk worldGen s cx cy = Except.ok (c, s)
    ∧ (getOrGenerateChunkAsync s cx cy).2.genCount = s.genCount
    ∧ (getOrGenerateChunkAsync s cx cy).2.jobs = s.jobs
    ∧ (getOrGenerateChunkAsync s cx cy).2.chunks = s.chunks
    ∧ (getOrGenerateChunkAsync s cx cy).2.inflight = s.inflight
    ∧ lookupA (getOrGenerateChunkAsync s cx cy).2.promises (getOrGenerateChunkAsync s cx cy).1
        = some (PromState.resolved c)
    ∧ (∀ op k2 c2, lookupA s.chunks k2 = some c2 →
        lookupA (stepOp worldGen s op).chunks k2 = some c2)
    ∧ (∀ op, CacheWF worldGen (stepOp worldGen s op))
    ∧ (∀ op, JobsWF (stepOp worldGen s op)) := by
  have hhit := async_hit s cx cy c hc
  refine ⟨?_, ?_, ?_, ?_, ?_, ?_, ?_, ?_, ?_⟩
  · simp only [getOrGenerateChunk, hc]
  · rw [hhit]
  · rw [hhit]
  · rw [hhit]
  · rw [hhit]
  · rw [hhit]
    exact lookupA_setA_self _ _ _
  · intro op k2 c2 h2
    exact stepOp_chunks_preserved worldGen s op k2 c2 hwf hjobs h2
  · intro op
    exact stepOp_cacheWF worldGen s op hwf hjobs
  · intro op
    exact stepOp_jobsWF worldGen s op hjobs

/-- C3 witness: the cache-stability theorem applied to a state whose cache
holds chunk (0,0) produced by the trivial generator. -/
theorem cache_stability_witness :
    CacheWF trivialGen cachedCoordState
    ∧ JobsWF cachedCoordState
    ∧ lookupA cachedCoordState.chunks (WorldGenerator.getChunkKey 0 0)
        = some { x := 0, y := 0, tiles := [] }
    ∧ getOrGenerateChunk trivialGen cachedCoordState 0 0
        = Except.ok ({ x := 0, y := 0, tiles := [] }, cachedCoordState)
    ∧ (getOrGenerateChunkAsync cachedCoordState 0 0).2.genCount = cachedCoordState.genCount
    ∧ (getOrGenerateChunkAsync cachedCoordState 0 0).2.chunks = cachedCoordState.chunks := by
  have hwf : CacheWF trivialGen cachedCoordState := by
    intro k c h
    by_cases hk : k = WorldGenerator.getChunkKey 0 0
    · subst hk
      simp only [cachedCoordState] at h
      rw [lookupA_setA_self] at h
      injection h with h2
      exact ⟨0, 0, rfl, by rw [← h2]; rfl⟩
    · simp only [cachedCoordState] at h
      rw [lookupA_setA_ne _ _ _ _ hk] at h
      cases h
  have hjobs : JobsWF cachedCoordState := by
    intro j hj
    cases hj
  have hc : lookupA cachedCoordState.chunks (WorldGenerator.getChunkKey 0 0)
      = some { x := 0, y := 0, tiles := [] } := lookupA_setA_self _ _ _
  have hmain := cache_stability trivialGen cachedCoordState 0 0
    { x := 0, y := 0, tiles := [] } hwf hjobs hc
  exact ⟨hwf, hjobs, hc, hmain.1, hmain.2.1, hmain.2.2.2.1⟩

/-- C7 (amended): on a getOrGenerateChunkAsync call whose key is neither
cached nor in flight, the coordinator creates a new pending future,
registers it in the in-flight table and schedules the generation as a
microtask that runs the control-thread World Generator itself (it does not
delegate to the Worker Pool Dispatcher — nothing in GameStateManager calls
WorkerManager.generateChunk); when that microtask runs, the chunk is
inserted into the cache, the in-flight marker is cleared, subscribers are
notified, and the future resolves with the chunk. -/
theorem async_generates_inline (worldGen : Int → Int → Except String Chunk)
    (s : CoordState) (cx cy : Int) (c : Chunk)
    (hgen : worldGen cx cy = Except.ok c)
    (hnc : lookupA s.chunks (WorldGenerator.getChunkKey cx cy) = none)
    (hni : lookupA s.inflight (WorldGenerator.getChunkKey cx cy) = none)
    (hjobs : s.jobs = []) :
    lookupA (getOrGenerateChunkAsync s cx cy).2.promises (getOrGenerateChunkAsync s cx cy).1
      = some PromState.pending
    ∧ lookupA (getOrGenerateChunkAsync s cx cy).2.inflight (WorldGenerator.getChunkKey cx cy)
        = some (getOrGenerateChunkAsync s cx cy).1
    ∧ (getOrGenerateChunkAsync s cx cy).2.jobs
        = [PendingJob.mk (WorldGenerator.getChunkKey cx cy) cx cy (getOrGenerateChunkAsync s cx cy).1]
    ∧ (runNextJob worldGen (getOrGenerateChunkAsync s cx cy).2).genCount = s.genCount + 1
    ∧ lookupA (runNextJob worldGen (getOrGenerateChunkAsync s cx cy).2).chunks
        (WorldGenerator.getChunkKey cx cy) = some c
    ∧ lookupA (runNextJob worldGen (getOrGenerateChunkAsync s cx cy).2).inflight
        (WorldGenerator.getChunkKey cx cy) = none
    ∧ (runNextJob worldGen (getOrGenerateChunkAsync s cx cy).2).notifyCount = s.notifyCount + 1
    ∧ lookupA (runNextJob worldGen (getOrGenerateChunkAsync s cx cy).2).promises
        (getOrGenerateChunkAsync s cx cy).1 = some (PromState.resolved c) := by
  have hs1 := async_miss s cx cy hnc hni
  have hrun : runNextJob worldGen (getOrGenerateChunkAsync s cx cy).2 =
      { (getOrGenerateChunkAsync s cx cy).2 with
          jobs := []
          chunks := setA (getOrGenerateChunkAsync s cx cy).2.chunks
            (WorldGenerator.getChunkKey cx cy) c
          inflight := eraseA (getOrGenerateChunkAsync s cx cy).2.inflight
            (WorldGenerator.getChunkKey cx cy)
          promises := setA (getOrGenerateChunkAsync s cx cy).2.promises s.nextPromiseId
            (PromState.resolved c)
          notifyCount := (getOrGenerateChunkAsync s cx cy).2.notifyCount + 1
          genCount := (getOrGenerateChunkAsync s cx cy).2.genCount + 1 } := by
    apply runNextJob_ok worldGen _
      (PendingJob.mk (WorldGenerator.getChunkKey cx cy) cx cy s.nextPromiseId) []
    · rw [hs1]
      simp [hjobs]
    · exact hgen
  refine ⟨?_, ?_, ?_, ?_, ?_, ?_, ?_, ?_⟩
  · rw [hs1]
    exact lookupA_setA_self _ _ _
  · rw [hs1]
    exact lookupA_setA_self _ _ _
  · rw [hs1]
    simp [hjobs]
  · rw [hrun, hs1]
  · rw [hrun, hs1]
    exact lookupA_setA_self _ _ _
  · rw [hrun, hs1]
    exact lookupA_eraseA_self _ _
  · rw [hrun, hs1]
  · rw [hrun, hs1]
    exact lookupA_setA_self _ _ _

/-- C7 counterexample: in the concrete run from the empty state, the chunk
for (0,0) is produced by the control-thread World Generator itself — its
invocation counter rises from 0 to 1 when the scheduled microtask runs — so
the claim that the new future delegates generation to the Worker Pool
Dispatcher rather than running the World Generator on the control thread is
false. -/
theorem async_generates_inline_counterexample :
    (runNextJob trivialGen (getOrGenerateChunkAsync emptyCoordState 0 0).2).genCount = 1
    ∧ ¬((runNextJob trivialGen (getOrGenerateChunkAsync emptyCoordState 0 0).2).genCount = 0)
    ∧ lookupA (runNextJob trivialGen (getOrGenerateChunkAsync emptyCoordState 0 0).2).chunks
        (WorldGenerator.getChunkKey 0 0) = some { x := 0, y := 0, tiles := [] } := by
  decide

/-- C7 witness: the amended theorem applied to the empty state. -/
theorem async_generates_inline_witness :
    trivialGen 0 0 = Except.ok { x := 0, y := 0, tiles := [] }
    ∧ lookupA emptyCoordState.chunks (WorldGenerator.getChunkKey 0 0) = none
    ∧ lookupA emptyCoordState.inflight (WorldGenerator.getChunkKey 0 0) = none
    ∧ emptyCoordState.jobs = []
    ∧ lookupA (getOrGenerateChunkAsync emptyCoordState 0 0).2.promises
        (getOrGenerateChunkAsync emptyCoordState 0 0).1 = some PromState.pending
    ∧ (runNextJob trivialGen (getOrGenerateChunkAsync emptyCoordState 0 0).2).genCount
        = emptyCoordState.genCount + 1
    ∧ lookupA (runNextJob trivialGen (getOrGenerateChunkAsync emptyCoordState 0 0).2).inflight
        (WorldGenerator.getChunkKey 0 0) = none
    ∧ (runNextJob trivialGen (getOrGenerateChunkAsync emptyCoordState 0 0).2).notifyCount
        = emptyCoordState.notifyCount + 1 := by
  have h := async_generates_inline trivialGen emptyCoordState 0 0
    { x := 0, y := 0, tiles := [] } rfl rfl rfl rfl
  exact ⟨rfl, rfl, rfl, rfl, h.1, h.2.2.2.1, h.2.2.2.2.2.1, h.2.2.2.2.2.2.1⟩

/-- C8 (amended): if the generation scheduled by getOrGenerateChunkAsync
throws, the returned future rejects and no chunk is inserted into the cache
for that key, but — because the promise chain has no catch handler — the
in-flight marker for the key is NOT cleared: a subsequent
getOrGenerateChunkAsync call for the same key returns the same already
rejected future and does not start a fresh generation. -/
theorem async_failure_keeps_marker (worldGen : Int → Int → Except String Chunk)
    (s : CoordState) (cx cy : Int) (e : String)
    (hgen : worldGen cx cy = Except.error e)
    (hnc : lookupA s.chunks (WorldGenerator.getChunkKey cx cy) = none)
    (hni : lookupA s.inflight (WorldGenerator.getChunkKey cx cy) = none)
    (hjobs : s.jobs = []) :
    lookupA (runNextJob worldGen (getOrGenerateChunkAsync s cx cy).2).promises
      (getOrGenerateChunkAsync s cx cy).1 = some (PromState.rejected e)
    ∧ (runNextJob worldGen (getOrGenerateChunkAsync s cx cy).2).chunks = s.chunks
    ∧ lookupA (runNextJob worldGen (getOrGenerateChunkAsync s cx cy).2).chunks
        (WorldGenerator.getChunkKey cx cy) = none
    ∧ lookupA (runNextJob worldGen (getOrGenerateChunkAsync s cx cy).2).inflight
        (WorldGenerator.getChunkKey cx cy) = some (getOrGenerateChunkAsync s cx cy).1
    ∧ getOrGenerateChunkAsync (runNextJob worldGen (getOrGenerateChunkAsync s cx cy).2) cx cy
        = ((getOrGenerateChunkAsync s cx cy).1,
           runNextJob worldGen (getOrGenerateChunkAsync s cx cy).2)
    ∧ (runNextJob worldGen (getOrGenerateChunkAsync s cx cy).2).jobs = [] := by
  have hs1 := async_miss s cx cy hnc hni
  have hrun : runNextJob worldGen (getOrGenerateChunkAsync s cx cy).2 =
      { (getOrGenerateChunkAsync s cx cy).2 with
          jobs := []
          promises := setA (getOrGenerateChunkAsync s cx cy).2.promises s.nextPromiseId
            (PromState.rejected e)
          genCount := (getOrGenerateChunkAsync s cx cy).2.genCount + 1 } := by
    apply runNextJob_error worldGen _
      (PendingJob.mk (WorldGenerator.getChunkKey cx cy) cx cy s.nextPromiseId) []
    · rw [hs1]
      simp [hjobs]
    · exact hgen
  have hchunks : (runNextJob worldGen (getOrGenerateChunkAsync s cx cy).2).chunks = s.chunks := by
    rw [hrun, hs1]
  have hinflight : lookupA (runNextJob worldGen (getOrGenerateChunkAsync s cx cy).2).inflight
      (WorldGenerator.getChunkKey cx cy) = some (getOrGenerateChunkAsync s cx cy).1 := by
    rw [hrun, hs1]
    exact lookupA_setA_self _ _ _
  refine ⟨?_, hchunks, ?_, hinflight, ?_, ?_⟩
  · rw [hrun, hs1]
    exact lookupA_setA_self _ _ _
  · rw [hchunks]
    exact hnc
  · have hnc2 : lookupA (runNextJob worldGen (getOrGenerateChunkAsync s cx cy).2).chunks
        (WorldGenerator.getChunkKey cx cy) = none := by
      rw [hchunks]
      exact hnc
    exact async_inflight _ cx cy (getOrGenerateChunkAsync s cx cy).1 hnc2 hinflight
  · rw [hrun]

/-- C8 counterexample: after the generation for key "0,0" fails, the
in-flight marker is still present (not cleared as the claim states), and a
subsequent call returns the same rejected promise 0 with the state — and in
particular the job queue — unchanged, i.e. no fresh generation starts. -/
theorem async_failure_counterexample :
    ¬(lookupA failedCoordState.inflight (WorldGenerator.getChunkKey 0 0) = none)
    ∧ lookupA failedCoordState.promises 0 = some (PromState.rejected "boom")
    ∧ lookupA failedCoordState.chunks (WorldGenerator.getChunkKey 0 0) = none
    ∧ getOrGenerateChunkAsync failedCoordState 0 0 = (0, failedCoordState)
    ∧ (getOrGenerateChunkAsync failedCoordState 0 0).2.jobs = [] := by
  decide

/-- C8 witness: the amended theorem applied to the empty state with the
failing generator. -/
theorem async_failure_keeps_marker_witness :
    failingGen 0 0 = Except.error "boom"
    ∧ lookupA emptyCoordState.chunks (WorldGenerator.getChunkKey 0 0) = none
    ∧ lookupA emptyCoordState.inflight (WorldGenerator.getChunkKey 0 0) = none
    ∧ emptyCoordState.jobs = []
    ∧ lookupA (runNextJob failingGen (getOrGenerateChunkAsync emptyCoordState 0 0).2).promises
        (getOrGenerateChunkAsync emptyCoordState 0 0).1 = some (PromState.rejected "boom")
    ∧ lookupA (runNextJob failingGen (getOrGenerateChunkAsync emptyCoordState 0 0).2).inflight
        (WorldGenerator.getChunkKey 0 0) = some (getOrGenerateChunkAsync emptyCoordState 0 0).1
    ∧ (runNextJob failingGen (getOrGenerateChunkAsync emptyCoordState 0 0).2).jobs = [] := by
  have h := async_failure_keeps_marker failingGen emptyCoordState 0 0 "boom" rfl rfl rfl rfl
  exact ⟨rfl, rfl, rfl, rfl, h.1, h.2.2.2.1, h.2.2.2.2.2⟩

/-- C6 witness: constant amount-noise 0 gives resourceAmount 75, inside
both [50, 100] and [50, 100). -/
theorem resource_amount_formula_witness :
    (0 : Nat) < 32
    ∧ (0 : ℚ) = (constNF 0 0 0 1 0).resourceAmountNoise
        ((((0 : Int) * 32 + ((0 : Nat) : Int) : Int) : ℚ) * 0.08)
        ((((0 : Int) * 32 + ((0 : Nat) : Int) : Int) : ℚ) * 0.08)
    ∧ (((WorldGenerator.generateChunk (constNF 0 0 0 1 0) 0 0).tiles.getD 0 []).getD 0 defaultTile).resourceAmount
        = some 75
    ∧ ((75 : Int) = ⌊((0 : ℚ) + 1) * 25⌋ + 50
       ∧ (-1 ≤ (0 : ℚ) → (0 : ℚ) ≤ 1 → 50 ≤ (75 : Int) ∧ (75 : Int) ≤ 100)
       ∧ (-1 ≤ (0 : ℚ) → (0 : ℚ) < 1 → 50 ≤ (75 : Int) ∧ (75 : Int) < 100)) := by
  have ha : (((WorldGenerator.generateChunk (constNF 0 0 0 1 0) 0 0).tiles.getD 0 []).getD 0 defaultTile).resourceAmount
      = some 75 := by
    rw [WorldGenerator.tile_getD (constNF 0 0 0 1 0) 0 0 0 0 (by norm_num) (by norm_num)]
    unfold tileAt constNF
    norm_num
  exact ⟨by norm_num, rfl, ha,
    resource_amount_formula (constNF 0 0 0 1 0) 0 0 0 0 (by norm_num) (by norm_num) 75 0 rfl ha⟩

/-- C6 counterexample: with the amount-noise sample exactly 1 — inside the
claimed precondition interval [-1, 1] — the generated resourceAmount is
floor((1+1)*25)+50 = 100, which is not in the claimed half-open range
[50, 100). -/
theorem resource_amount_range_counterexample :
    (((WorldGenerator.generateChunk (constNF 0 0 0 1 1) 0 0).tiles.getD 0 []).getD 0 defaultTile).resourceAmount
      = some 100
    ∧ (-1 : ℚ) ≤ (constNF 0 0 0 1 1).resourceAmountNoise
        ((((0 : Int) * 32 + ((0 : Nat) : Int) : Int) : ℚ) * 0.08)
        ((((0 : Int) * 32 + ((0 : Nat) : Int) : Int) : ℚ) * 0.08)
    ∧ (constNF 0 0 0 1 1).resourceAmountNoise
        ((((0 : Int) * 32 + ((0 : Nat) : Int) : Int) : ℚ) * 0.08)
        ((((0 : Int) * 32 + ((0 : Nat) : Int) : Int) : ℚ) * 0.08) ≤ 1
    ∧ ¬(50 ≤ (100 : Int) ∧ (100 : Int) < 100) := by
  refine ⟨?_, ?_, ?_, by norm_num⟩
  · rw [WorldGenerator.tile_getD (constNF 0 0 0 1 1) 0 0 0 0 (by norm_num) (by norm_num)]
    unfold tileAt constNF
    norm_num
  · show (-1 : ℚ) ≤ 1
    norm_num
  · show (1 : ℚ) ≤ 1
    norm_num

/-- C9: every chunk request schedules a 5000 ms timer, chunk-texture
requests 5000 ms, tile and resource texture requests 3000 ms; when a timer
fires while its request is still pending, the pending-table entry is
removed and the captured promise rejects with the timeout error while other
pending entries and the other table are untouched; an inbound response
whose id has no pending-table entry (e.g. a late response after its
timeout) is ignored, leaving the whole dispatcher state unchanged. -/
theorem dispatcher_timeout_and_unknown_id (s : WMState)
    (cx cy : Int) (seed : String) (variant : TextureVariant) (color : String) (ch : Chunk)
    (tc tt : Timer) (m : ChunkWorkerResponseMsg)
    (tid : String) (bmp : Option Nat) (err : Option String) (idOther idOther2 : String)
    (htc : tc.table = TimerTable.chunkTable)
    (htcp : (lookupA s.pendingChunkRequests tc.reqId).isSome = true)
    (htt : tt.table = TimerTable.textureTable)
    (httn : (lookupA s.pendingTextureRequests tt.reqId).isSome = true)
    (hm : lookupA s.pendingChunkRequests m.id = none)
    (htid : lookupA s.pendingTextureRequests tid = none)
    (hidO : idOther ≠ tc.reqId)
    (hidO2 : idOther2 ≠ tt.reqId) :
    (WorkerManager.generateChunk s cx cy seed).2.timers
      = s.timers ++ [Timer.mk TimerTable.chunkTable ("chunk_" ++ toString (s.chunkRequestId + 1))
          5000 s.nextPromise "Chunk generation timeout"]
    ∧ (WorkerManager.generateChunkTexture s ch).2.timers
      = s.timers ++ [Timer.mk TimerTable.textureTable ("texture_" ++ toString (s.textureRequestId + 1))
          5000 s.nextPromise "Chunk texture generation timeout"]
    ∧ (WorkerManager.generateTileTexture s variant).2.timers
      = s.timers ++ [Timer.mk TimerTable.textureTable ("texture_" ++ toString (s.textureRequestId + 1))
          3000 s.nextPromise "Texture generation timeout"]
    ∧ (WorkerManager.generateResourceTexture s color).2.timers
      = s.timers ++ [Timer.mk TimerTable.textureTable ("texture_" ++ toString (s.textureRequestId + 1))
          3000 s.nextPromise "Resource texture generation timeout"]
    ∧ lookupA (fireTimer s tc).pendingChunkRequests tc.reqId = none
    ∧ lookupA (fireTimer s tc).promises tc.pid = some (WMProm.rejected tc.errMsg)
    ∧ lookupA (fireTimer s tc).pendingChunkRequests idOther = lookupA s.pendingChunkRequests idOther
    ∧ (fireTimer s tc).pendingTextureRequests = s.pendingTextureRequests
    ∧ lookupA (fireTimer s tt).pendingTextureRequests tt.reqId = none
    ∧ lookupA (fireTimer s tt).promises tt.pid = some (WMProm.rejected tt.errMsg)
    ∧ lookupA (fireTimer s tt).pendingTextureRequests idOther2 = lookupA s.pendingTextureRequests idOther2
    ∧ (fireTimer s tt).pendingChunkRequests = s.pendingChunkRequests
    ∧ handleChunkWorkerMessage s m = s
    ∧ handleTextureWorkerMessage s (TextureWorkerResponseMsg.texture tid bmp err) = s := by
  have hfc : fireTimer s tc =
      { s with pendingChunkRequests := eraseA s.pendingChunkRequests tc.reqId
               promises := setA s.promises tc.pid (WMProm.rejected tc.errMsg) } := by
    simp only [fireTimer, htc]
    rw [if_pos htcp]
  have hft : fireTimer s tt =
      { s with pendingTextureRequests := eraseA s.pendingTextureRequests tt.reqId
               promises := setA s.promises tt.pid (WMProm.rejected tt.errMsg) } := by
    simp only [fireTimer, htt]
    rw [if_pos httn]
  refine ⟨rfl, rfl, rfl, rfl, ?_, ?_, ?_, ?_, ?_, ?_, ?_, ?_, ?_, ?_⟩
  · rw [hfc]
    exact lookupA_eraseA_self _ _
  · rw [hfc]
    exact lookupA_setA_self _ _ _
  · rw [hfc]
    exact lookupA_eraseA_ne _ _ _ hidO
  · rw [hfc]
  · rw [hft]
    exact lookupA_eraseA_self _ _
  · rw [hft]
    exact lookupA_setA_self _ _ _
  · rw [hft]
    exact lookupA_eraseA_ne _ _ _ hidO2
  · rw [hft]
  · simp only [handleChunkWorkerMessage, hm]
  · simp only [handleTextureWorkerMessage, htid]

/-- C9 witness: firing the two pending timers of a concrete dispatcher
state removes the pending entries and rejects the promises, and a response
with an unknown id leaves the state unchanged. -/
theorem dispatcher_timeout_witness :
    (Timer.mk TimerTable.chunkTable "chunk_1" 5000 0 "Chunk generation timeout").table
        = TimerTable.chunkTable
    ∧ (lookupA wmWitnessState.pendingChunkRequests "chunk_1").isSome = true
    ∧ lookupA wmWitnessState.pendingChunkRequests "late" = none
    ∧ lookupA (fireTimer wmWitnessState
        (Timer.mk TimerTable.chunkTable "chunk_1" 5000 0 "Chunk generation timeout")).pendingChunkRequests
        "chunk_1" = none
    ∧ lookupA (fireTimer wmWitnessState
        (Timer.mk TimerTable.chunkTable "chunk_1" 5000 0 "Chunk generation timeout")).promises 0
        = some (WMProm.rejected "Chunk generation timeout")
    ∧ handleChunkWorkerMessage wmWitnessState
        (ChunkWorkerResponseMsg.mk "late" { x := 0, y := 0, tiles := [] } none) = wmWitnessState
    ∧ (WorkerManager.generateChunk wmWitnessState 0 0 "s").2.timers
        = wmWitnessState.timers ++ [Timer.mk TimerTable.chunkTable "chunk_2" 5000 2 "Chunk generation timeout"] := by
  have h := dispatcher_timeout_and_unknown_id wmWitnessState 0 0 "s"
    (TextureVariant.mk "#000000" "#000000" 0) "#000000" { x := 0, y := 0, tiles := [] }
    (Timer.mk TimerTable.chunkTable "chunk_1" 5000 0 "Chunk generation timeout")
    (Timer.mk TimerTable.textureTable "texture_1" 3000 1 "Texture generation timeout")
    (ChunkWorkerResponseMsg.mk "late" { x := 0, y := 0, tiles := [] } none)
    "late2" none none "other" "other2"
    rfl (by decide) rfl (by decide) (by decide) (by decide) (by decide) (by decide)
  refine ⟨rfl, by decide, by decide, h.2.2.2.2.1, h.2.2.2.2.2.1, h.2.2.2.2.2.2.2.2.2.2.2.2.1, ?_⟩
  have h1 := h.1
  rw [h1]
  decide

theorem chunkWorkerHandleMessage_eq
    (prandoNext : String → Nat → ℚ)
    (createNoise2D : (Nat → ℚ) → Nat → ((ℚ → ℚ → ℚ) × Nat))
    (s : ChunkWorkerState) (m : ChunkWorkerRequestMsg) :
    chunkWorkerHandleMessage prandoNext createNoise2D s m =
      (match lookupA s.chunkCache (toString m.chunkX ++ "," ++ toString m.chunkY) with
       | some chunk =>
         { generatorSeed := some m.seed
           chunkCache := s.chunkCache
           outbox := s.outbox ++ [ChunkWorkerResponseMsg.mk m.id chunk none] }
       | none =>
         { generatorSeed := some m.seed
           chunkCache := setA s.chunkCache (toString m.chunkX ++ "," ++ toString m.chunkY)
             (WorkerWorldGenerator.generateChunk
               (WorkerWorldGenerator.create prandoNext createNoise2D m.seed) m.chunkX m.chunkY)
           outbox := s.outbox ++ [ChunkWorkerResponseMsg.mk m.id
             (WorkerWorldGenerator.generateChunk
               (WorkerWorldGenerator.create prandoNext createNoise2D m.seed) m.chunkX m.chunkY) none] }) := by
  simp only [chunkWorkerHandleMessage, Bool.or_true, if_true, Option.getD_some]

/-- C10: the chunk worker's memo cache is keyed only by the coordinates
string `${chunkX},${chunkY}` — after the worker has answered one request
for (cx, cy), any later request for the same coordinates is answered from
the memo regardless of the seed it carries: the posted chunk equals the
memoized one, the cache is unchanged, and two later requests differing only
in their seed field produce identical responses and identical caches. -/
theorem worker_memo_ignores_seed
    (prandoNext : String → Nat → ℚ)
    (createNoise2D : (Nat → ℚ) → Nat → ((ℚ → ℚ → ℚ) × Nat))
    (s : ChunkWorkerState) (id1 id2 : String) (cx cy : Int) (seed1 seed2 seed3 : String)
    (s1 : ChunkWorkerState) (key : String)
    (hs1 : s1 = chunkWorkerHandleMessage prandoNext createNoise2D s
      (ChunkWorkerRequestMsg.mk id1 cx cy seed1))
    (hkey : key = toString cx ++ "," ++ toString cy) :
    (lookupA s1.chunkCache key).isSome = true
    ∧ (chunkWorkerHandleMessage prandoNext createNoise2D s1
        (ChunkWorkerRequestMsg.mk id2 cx cy seed2)).chunkCache = s1.chunkCache
    ∧ (chunkWorkerHandleMessage prandoNext createNoise2D s1
        (ChunkWorkerRequestMsg.mk id2 cx cy seed2)).outbox
      = s1.outbox ++ [ChunkWorkerResponseMsg.mk id2
          ((lookupA s1.chunkCache key).getD (Chunk.mk 0 0 [])) none]
    ∧ (chunkWorkerHandleMessage prandoNext createNoise2D s1
        (ChunkWorkerRequestMsg.mk id2 cx cy seed2)).outbox
      = (chunkWorkerHandleMessage prandoNext createNoise2D s1
          (ChunkWorkerRequestMsg.mk id2 cx cy seed3)).outbox
    ∧ (chunkWorkerHandleMessage prandoNext createNoise2D s1
        (ChunkWorkerRequestMsg.mk id2 cx cy seed2)).chunkCache
      = (chunkWorkerHandleMessage prandoNext createNoise2D s1
          (ChunkWorkerRequestMsg.mk id2 cx cy seed3)).chunkCache := by
  subst hs1
  subst hkey
  simp only [chunkWorkerHandleMessage_eq]
  cases h0 : lookupA s.chunkCache (toString cx ++ "," ++ toString cy) with
  | some chunk =>
    simp [h0]
  | none =>
    simp [h0, lookupA_setA_self]

/-- C10 witness: after a fresh worker answers a request for (0,0) with seed
"seedA", two later requests for (0,0) carrying the distinct seeds "seedB"
and "seedC" produce identical responses from the memo. -/
theorem worker_memo_ignores_seed_witness :
    chunkWorkerHandleMessage prando0 createNoise2D0 freshWorkerState
        (ChunkWorkerRequestMsg.mk "a" 0 0 "seedA")
      = chunkWorkerHandleMessage prando0 createNoise2D0 freshWorkerState
        (ChunkWorkerRequestMsg.mk "a" 0 0 "seedA")
    ∧ ("0,0" : String) = toString (0 : Int) ++ "," ++ toString (0 : Int)
    ∧ (lookupA (chunkWorkerHandleMessage prando0 createNoise2D0 freshWorkerState
        (ChunkWorkerRequestMsg.mk "a" 0 0 "seedA")).chunkCache "0,0").isSome = true
    ∧ (chunkWorkerHandleMessage prando0 createNoise2D0
        (chunkWorkerHandleMessage prando0 createNoise2D0 freshWorkerState
          (ChunkWorkerRequestMsg.mk "a" 0 0 "seedA"))
        (ChunkWorkerRequestMsg.mk "b" 0 0 "seedB")).outbox
      = (chunkWorkerHandleMessage prando0 createNoise2D0
          (chunkWorkerHandleMessage prando0 createNoise2D0 freshWorkerState
            (ChunkWorkerRequestMsg.mk "a" 0 0 "seedA"))
          (ChunkWorkerRequestMsg.mk "b" 0 0 "seedC")).outbox := by
  have h := worker_memo_ignores_seed prando0 createNoise2D0 freshWorkerState "a" "b" 0 0
    "seedA" "seedB" "seedC" _ "0,0" rfl (by decide)
  exact ⟨rfl, by decide, h.1, h.2.2.2.1⟩
